import Mathlib

/-!
Shallow embedding of the GaiaNet chatbot backend core
(`src/gaianet-chatbot/backend/app.py`): content sanitizer, sensitive-data
filter, request validator, rate limiter, upstream-client error mapping and
the two chat entry points.

Python regular expressions are embedded as bespoke matchers over
`List Char`, reproducing CPython `re` semantics (leftmost match,
greedy/lazy repetition exactly as written in each pattern, word
boundaries, case-insensitive flags) on the ASCII fragment relevant to
this code base (`\w`, `\s`, `\d` and the case folds are modelled on
ASCII characters).
-/

namespace GaiaApp

/-- Python `\w` on the ASCII fragment: letters, digits, underscore. -/
def isWordChar (c : Char) : Bool := c.isAlpha || c.isDigit || c = '_'

/-- Python `\s` on the ASCII fragment. -/
def isSpaceChar (c : Char) : Bool :=
  c = ' ' || c = '\t' || c = '\n' || c = '\r' || c = '\x0b' || c = '\x0c'

/-- Does the remaining input start with a word character? -/
def headIsWord (s : List Char) : Bool :=
  match s with
  | [] => false
  | c :: _ => isWordChar c

/-- Python `\b`: holds when word-ness changes between the previous
character (`prevW`, `false` at the start of the text) and the next one
(non-word at the end of the text). -/
def wordBoundary (prevW : Bool) (s : List Char) : Bool :=
  prevW != headIsWord s

/-- A matcher returns the matched characters and the rest of the input
when its pattern matches at the current position, given the word-ness of
the preceding character.  Every matcher below consumes at least one
character on success. -/
abbrev Matcher := Bool → List Char → Option (List Char × List Char)

/-- `\d{4}`: exactly four digits. -/
def takeDigits4 (s : List Char) : Option (List Char × List Char) :=
  match s with
  | c1 :: c2 :: c3 :: c4 :: r =>
    if c1.isDigit && c2.isDigit && c3.isDigit && c4.isDigit then some ([c1, c2, c3, c4], r)
    else none
  | _ => none

/-- `\d{3}`: exactly three digits. -/
def takeDigits3 (s : List Char) : Option (List Char × List Char) :=
  match s with
  | c1 :: c2 :: c3 :: r =>
    if c1.isDigit && c2.isDigit && c3.isDigit then some ([c1, c2, c3], r) else none
  | _ => none

/-- `\d{2}`: exactly two digits. -/
def takeDigits2 (s : List Char) : Option (List Char × List Char) :=
  match s with
  | c1 :: c2 :: r => if c1.isDigit && c2.isDigit then some ([c1, c2], r) else none
  | _ => none

/-- `[-\s]` inside the credit-card pattern. -/
def isCcSep (c : Char) : Bool := c = '-' || isSpaceChar c

/-- One `\d{4}[-\s]?` group.  The optional separator is taken greedily;
skipping a present separator can never help, because the next atom of the
pattern requires a digit and a separator character is not a digit. -/
def ccGroup (s : List Char) : Option (List Char × List Char) :=
  match takeDigits4 s with
  | none => none
  | some (g, r) =>
    match r with
    | c :: cs => if isCcSep c then some (g ++ [c], cs) else some (g, r)
    | [] => some (g, [])

/-- `\b(?:\d{4}[-\s]?){3}\d{4}\b` — the `credit_card` pattern. -/
def matchCreditCard : Matcher := fun prevW s =>
  if wordBoundary prevW s = false then none else
  match ccGroup s with
  | none => none
  | some (g1, r1) =>
    match ccGroup r1 with
    | none => none
    | some (g2, r2) =>
      match ccGroup r2 with
      | none => none
      | some (g3, r3) =>
        match takeDigits4 r3 with
        | none => none
        | some (g4, r4) =>
          -- the character before the closing `\b` is always a digit here
          if wordBoundary true r4 then some (g1 ++ g2 ++ g3 ++ g4, r4) else none

/-- Expect one literal character. -/
def expectChar (c : Char) (s : List Char) : Option (List Char) :=
  match s with
  | d :: cs => if d = c then some cs else none
  | [] => none

/-- `\b\d{3}-\d{2}-\d{4}\b` — the `ssn` pattern. -/
def matchSSN : Matcher := fun prevW s =>
  if wordBoundary prevW s = false then none else
  match takeDigits3 s with
  | none => none
  | some (a, r1) =>
    match expectChar '-' r1 with
    | none => none
    | some r2 =>
      match takeDigits2 r2 with
      | none => none
      | some (b, r3) =>
        match expectChar '-' r3 with
        | none => none
        | some r4 =>
          match takeDigits4 r4 with
          | none => none
          | some (c, r5) =>
            if wordBoundary true r5 then some (a ++ '-' :: b ++ '-' :: c, r5) else none

/-- `\b\d{3}-\d{3}-\d{4}\b` — the `phone` pattern. -/
def matchPhone : Matcher := fun prevW s =>
  if wordBoundary prevW s = false then none else
  match takeDigits3 s with
  | none => none
  | some (a, r1) =>
    match expectChar '-' r1 with
    | none => none
    | some r2 =>
      match takeDigits3 r2 with
      | none => none
      | some (b, r3) =>
        match expectChar '-' r3 with
        | none => none
        | some r4 =>
          match takeDigits4 r4 with
          | none => none
          | some (c, r5) =>
            if wordBoundary true r5 then some (a ++ '-' :: b ++ '-' :: c, r5) else none

/-- `[A-Za-z0-9]{32,}` — the `api_key` pattern (no anchors, greedy). -/
def matchApiKey : Matcher := fun _ s =>
  let run := s.takeWhile Char.isAlphanum
  if 32 ≤ run.length then some (run, s.drop run.length) else none

/-- `[A-Za-z0-9._%+-]` — local part of the `email` pattern. -/
def isEmailLocalChar (c : Char) : Bool :=
  c.isAlphanum || c = '.' || c = '_' || c = '%' || c = '+' || c = '-'

/-- `[A-Za-z0-9.-]` — domain part of the `email` pattern. -/
def isEmailDomainChar (c : Char) : Bool := c.isAlphanum || c = '.' || c = '-'

/-- `[A-Z|a-z]` exactly as written in the source: letters plus a literal
pipe character. -/
def isEmailTldChar (c : Char) : Bool := c.isAlpha || c = '|'

/-- Backtracking over the length of the final `[A-Z|a-z]{2,}` run:
longest candidate first, each candidate must be followed by `\b`. -/
def emailTldTry (pre tld rest : List Char) : Nat → Option (List Char × List Char)
  | 0 => none
  | t + 1 =>
    match tld.get? t with
    | none => emailTldTry pre tld rest t
    | some c =>
      if t + 1 < 2 then none
      else
        let rem := tld.drop (t + 1) ++ rest
        if wordBoundary (isWordChar c) rem then some (pre ++ tld.take (t + 1), rem)
        else emailTldTry pre tld rest t

/-- Backtracking over the split of the greedy `[A-Za-z0-9.-]+` run into
`domain "." tld`: CPython gives the greedy run back one character at a
time, so the longest domain candidate is tried first. -/
def emailDomainSplit (loc dom r3 : List Char) : Nat → Option (List Char × List Char)
  | 0 => none
  | k + 1 =>
    let res :=
      match dom.drop (k + 1) ++ r3 with
      | '.' :: after =>
        let tldRun := after.takeWhile isEmailTldChar
        emailTldTry (loc ++ '@' :: dom.take (k + 1) ++ ['.']) tldRun
          (after.drop tldRun.length) tldRun.length
      | _ => none
    match res with
    | some x => some x
    | none => emailDomainSplit loc dom r3 k

/-- `\b[A-Za-z0-9._%+-]+@[A-Za-z0-9.-]+\.[A-Z|a-z]{2,}\b` — the `email`
pattern. -/
def matchEmail : Matcher := fun prevW s =>
  if wordBoundary prevW s = false then none else
  let loc := s.takeWhile isEmailLocalChar
  let r1 := s.dropWhile isEmailLocalChar
  if loc.isEmpty then none else
  match expectChar '@' r1 with
  | some r2 =>
    let dom := r2.takeWhile isEmailDomainChar
    let r3 := r2.dropWhile isEmailDomainChar
    if dom.isEmpty then none else
    emailDomainSplit loc dom r3 dom.length
  | none => none

/-- `[:\s=]` — separators of the `password` / `token` patterns. -/
def isKwSepChar (c : Char) : Bool := c = ':' || c = '=' || isSpaceChar c

/-- Backtracking over the greedy `[:\s=]+` run: the value part `[^\s]+`
needs at least one non-space character right after the separators, so a
trailing `:` or `=` of the run can be given back to serve as the value. -/
def kwValueSplit (kwPart sep r2 : List Char) : Nat → Option (List Char × List Char)
  | 0 => none
  | k + 1 =>
    let after := sep.drop (k + 1) ++ r2
    match after with
    | c :: _ =>
      if isSpaceChar c then kwValueSplit kwPart sep r2 k
      else
        let v := after.takeWhile (fun x => !(isSpaceChar x))
        some (kwPart ++ sep.take (k + 1) ++ v, after.drop v.length)
    | [] => kwValueSplit kwPart sep r2 k

/-- `(?i)<kw>[:\s=]+[^\s]+` — the `password` / `token` patterns; `kw` is
given in lower case. -/
def matchKeyword (kw : List Char) : Matcher := fun _ s =>
  if (s.take kw.length).map Char.toLower ≠ kw then none else
  let kwPart := s.take kw.length
  let rest := s.drop kw.length
  let sep := rest.takeWhile isKwSepChar
  let r2 := rest.dropWhile isKwSepChar
  kwValueSplit kwPart sep r2 sep.length

def matchPassword : Matcher := matchKeyword (String.toList ("password"))

def matchToken : Matcher := matchKeyword (String.toList ("token"))

/-- Word-ness of the character preceding the rest of the input after a
match (that is, of the last matched character). -/
def lastIsWord (prevW : Bool) (m : List Char) : Bool :=
  match m.getLast? with
  | some c => isWordChar c
  | none => prevW

/-- `re.sub(pattern, repl, s)`: scan left to right, replace every
non-overlapping match, continue after each match.  `fuel` dominates the
length of the input (every matcher consumes at least one character). -/
def pySubAux (m : Matcher) (repl : List Char) : Nat → Bool → List Char → List Char
  | 0, _, s => s
  | _ + 1, _, [] => []
  | fuel + 1, prevW, c :: cs =>
    match m prevW (c :: cs) with
    | some (mt, r) => repl ++ pySubAux m repl fuel (lastIsWord prevW mt) r
    | none => c :: pySubAux m repl fuel (isWordChar c) cs

def pySub (m : Matcher) (repl : List Char) (s : List Char) : List Char :=
  pySubAux m repl s.length false s

/-- `re.finditer(pattern, s)`: the matched substrings, left to right,
non-overlapping. -/
def pyFindAllAux (m : Matcher) : Nat → Bool → List Char → List (List Char)
  | 0, _, _ => []
  | _ + 1, _, [] => []
  | fuel + 1, prevW, c :: cs =>
    match m prevW (c :: cs) with
    | some (mt, r) => mt :: pyFindAllAux m fuel (lastIsWord prevW mt) r
    | none => pyFindAllAux m fuel (isWordChar c) cs

def pyFindAll (m : Matcher) (s : List Char) : List (List Char) :=
  pyFindAllAux m s.length false s

/-- A credit-card sequence exactly as the `credit_card` pattern accepts
it: 16 digits in 4 groups of 4 with optional `-`/space separators. -/
def ccCardShape (c : List Char) : Prop :=
  ∃ (a1 a2 a3 a4 b1 b2 b3 b4 c1 c2 c3 c4 d1 d2 d3 d4 : Char) (s1 s2 s3 : List Char),
    (a1.isDigit = true ∧ a2.isDigit = true ∧ a3.isDigit = true ∧ a4.isDigit = true ∧
      b1.isDigit = true ∧ b2.isDigit = true ∧ b3.isDigit = true ∧ b4.isDigit = true ∧
      c1.isDigit = true ∧ c2.isDigit = true ∧ c3.isDigit = true ∧ c4.isDigit = true ∧
      d1.isDigit = true ∧ d2.isDigit = true ∧ d3.isDigit = true ∧ d4.isDigit = true) ∧
    (s1 = [] ∨ s1 = ['-'] ∨ s1 = [' ']) ∧ (s2 = [] ∨ s2 = ['-'] ∨ s2 = [' ']) ∧
    (s3 = [] ∨ s3 = ['-'] ∨ s3 = [' ']) ∧
    c = [a1, a2, a3, a4] ++ s1 ++ [b1, b2, b3, b4] ++ s2 ++ [c1, c2, c3, c4] ++ s3 ++
      [d1, d2, d3, d4]

/-- A text interleaving credit-card sequences with filler text:
`(card, following filler)` segments rendered in order. -/
def ccRender : List (List Char × List Char) → List Char
  | [] => []
  | p :: rest => p.1 ++ p.2 ++ ccRender rest

/-- The same text with every card sequence replaced by `tag`. -/
def ccRenderSub (tag : List Char) : List (List Char × List Char) → List Char
  | [] => []
  | p :: rest => tag ++ p.2 ++ ccRenderSub tag rest

/-- A well-formed segment chain: each card has the accepted 16-digit
shape; each filler is digit-free (so no match can start inside it) and
begins with a non-word character (the trailing `\b` of its card); every
filler but the last also ends with a non-word character (the leading
`\b` of the next card), and only the last filler may be empty. -/
def ccChainOk : List (List Char × List Char) → Prop
  | [] => True
  | p :: rest =>
    ccCardShape p.1 ∧ (∀ x ∈ p.2, x.isDigit = false) ∧ headIsWord p.2 = false ∧
    (rest = [] ∨ lastIsWord true p.2 = false) ∧ ccChainOk rest

/-- A validated chat message, `{"role": ..., "content": ...}`. -/
structure ChatMessage where
  role : String
  content : String
deriving DecidableEq, Repr

namespace DataPrivacyFilter

/-- The pattern table of `DataPrivacyFilter.__init__`, in insertion
order. -/
def patternList : List (String × Matcher) :=
  [("credit_card", matchCreditCard), ("ssn", matchSSN), ("email", matchEmail),
   ("phone", matchPhone), ("api_key", matchApiKey),
   ("password", matchPassword), ("token", matchToken)]

/-- `detect_sensitive_data`: every pattern, every match, in table order
then text order. -/
def detect_sensitive_data (text : String) : List (String × String) :=
  patternList.flatMap (fun p => (pyFindAll p.2 text.data).map (fun mt => (p.1, String.mk mt)))

/-- `[REDACTED_<KIND_UPPERCASE>]` (upper-casing done character-wise so
that kernel reduction works). -/
def redactionTag (kind : String) : String :=
  String.mk (("[REDACTED_").data ++ kind.data.map Char.toUpper ++ ("]").data)

/-- `redact_sensitive_data`: sequential `re.sub` per pattern, in table
order, each running on the output of the previous one. -/
def redact_sensitive_data (text : String) : String :=
  patternList.foldl (fun acc p => String.mk (pySub p.2 (redactionTag p.1).data acc.data)) text

/-- Comma-separated single-quoted items, helper for `pyStrListRepr`. -/
def pyStrListReprCore : List String → String
  | [] => ""
  | [s] => "\x27" ++ s ++ "\x27"
  | s :: rest => "\x27" ++ s ++ "\x27" ++ ", " ++ pyStrListReprCore rest

/-- Python `str` of a list of strings (single-quoted items), as produced
by the f-string in `validate_request_privacy`. -/
def pyStrListRepr (l : List String) : String :=
  "[" ++ pyStrListReprCore l ++ "]"

/-- `validate_request_privacy`: one violation descriptor per message with
a non-empty detection result. -/
def validate_request_privacy (messages : List ChatMessage) : List String :=
  messages.enum.filterMap (fun p =>
    let sd := detect_sensitive_data p.2.content
    if sd.isEmpty then none
    else some ("Message " ++ toString p.1 ++ ": Found " ++ pyStrListRepr (sd.map Prod.fst)))

end DataPrivacyFilter

-- Sanity anchors against the CPython behaviour of the same patterns.
example : DataPrivacyFilter.detect_sensitive_data ("1234-5678-9012-3456") =
    [("credit_card", "1234-5678-9012-3456")] := by decide

example : DataPrivacyFilter.redact_sensitive_data ("1234 5678 9012 3456") =
    "[REDACTED_CREDIT_CARD]" := by decide

example : DataPrivacyFilter.redact_sensitive_data ("111-22-3333password: x") =
    "111-22-3333[REDACTED_PASSWORD]" := by decide

example :
    DataPrivacyFilter.redact_sensitive_data ("111-22-3333[REDACTED_PASSWORD]") =
    "[REDACTED_SSN][REDACTED_PASSWORD]" := by decide

example : DataPrivacyFilter.detect_sensitive_data ("4111 1111 1111 1") = [] := by decide

example : DataPrivacyFilter.detect_sensitive_data ("a@b.co|m") =
    [("email", "a@b.co|m")] := by decide

example : DataPrivacyFilter.detect_sensitive_data ("a@b.c|") = [] := by decide

example : DataPrivacyFilter.detect_sensitive_data ("password:=") =
    [("password", "password:=")] := by decide

example : DataPrivacyFilter.detect_sensitive_data ("password: ") = [] := by decide

/-- Case-insensitive literal prefix test (ASCII case folding, as in the
`re.IGNORECASE` uses below). -/
def ciPrefix (pat : List Char) (s : List Char) : Bool :=
  (s.take pat.length).map Char.toLower == pat

/-- Find the first case-insensitive occurrence of `pat` and return the
input after it (the lazy `.*?` of the script-tag pattern stops at the
first closing tag). -/
def findCiSub (pat : List Char) : Nat → List Char → Option (List Char)
  | 0, _ => none
  | _ + 1, [] => none
  | fuel + 1, c :: cs =>
    if ciPrefix pat (c :: cs) then some ((c :: cs).drop pat.length)
    else findCiSub pat fuel cs

/-- Try to match `<script[^>]*>.*?</script>` (ignore-case, dot-all) at the
head of the input, returning the input after the whole match. -/
def matchScriptTag (s : List Char) : Option (List Char) :=
  if ciPrefix (String.toList ("<script")) s then
    match (s.drop 7).dropWhile (fun c => c ≠ '>') with
    | '>' :: body => findCiSub (String.toList ("</script>")) body.length body
    | _ => none
  else none

/-- `re.sub(r"<script[^>]*>.*?</script>", "", s, flags=IGNORECASE|DOTALL)`. -/
def removeScriptTagsAux : Nat → List Char → List Char
  | 0, s => s
  | _ + 1, [] => []
  | fuel + 1, c :: cs =>
    match matchScriptTag (c :: cs) with
    | some rest => removeScriptTagsAux fuel rest
    | none => c :: removeScriptTagsAux fuel cs

def removeScriptTags (s : List Char) : List Char :=
  removeScriptTagsAux s.length s

/-- `re.sub(r"javascript:", "", s, flags=IGNORECASE)`. -/
def removeJavascriptAux : Nat → List Char → List Char
  | 0, s => s
  | _ + 1, [] => []
  | fuel + 1, c :: cs =>
    if ciPrefix (String.toList ("javascript:")) (c :: cs) then
      removeJavascriptAux fuel ((c :: cs).drop 11)
    else c :: removeJavascriptAux fuel cs

def removeJavascript (s : List Char) : List Char :=
  removeJavascriptAux s.length s

/-- The characters kept by `re.sub(r"[^\w\s\.\,\!\?\-\(\)\'\"]+", "", s)`:
word characters, whitespace, and the listed punctuation. -/
def isAllowedSanitizedChar (c : Char) : Bool :=
  isWordChar c || isSpaceChar c ||
    c ∈ ['.', ',', '!', '?', '-', '(', ')', '\x27', '"']

/-- Python `str.strip()` on the ASCII fragment. -/
def pyStrip (l : List Char) : List Char :=
  ((l.dropWhile isSpaceChar).reverse.dropWhile isSpaceChar).reverse

namespace RequestValidator

/-- `sanitize_content`: script-tag removal, `javascript:` removal,
character whitelist filter, strip.  Replacing every maximal run of
non-whitelisted characters by the empty string is the same as filtering
the characters individually. -/
def sanitize_content (content : String) : String :=
  String.mk (pyStrip ((removeJavascript (removeScriptTags content.data)).filter
    isAllowedSanitizedChar))

end RequestValidator

example : RequestValidator.sanitize_content
    ("Hello <script>alert(\x27xss\x27)</script> world") = "Hello  world" := by decide

example : RequestValidator.sanitize_content
    ("a<ScRiPt foo>body\nmore</sCrIpT>b javascript:alert @x:<") = "ab alert x" := by
  decide

example : RequestValidator.sanitize_content ("jaJAVASCRIPT:vascript:alert") =
    "javascriptalert" := by decide

example : RequestValidator.sanitize_content ("<script>x</script") =
    "scriptxscript" := by decide

/-- A JSON-like value, the shallow embedding of the Python objects a
request body may contain (`float` is modelled by `ℚ`; Python `bool` is a
subtype of `int`, which the conversions below account for). -/
inductive JVal where
  | s (v : String)
  | i (v : Int)
  | f (v : ℚ)
  | b (v : Bool)
  | arr (v : List JVal)
  | obj (v : List (String × JVal))
  | null

/-- The two Python exception kinds the validator can raise: explicit
`ValueError`s, and `TypeError`s coming from `re` / `len` applied to a
value of the wrong type. -/
inductive PyErr where
  | valueError (msg : String)
  | typeError (msg : String)
deriving DecidableEq, Repr

/-- `dict.get`: the first binding wins. -/
def jget (d : List (String × JVal)) (k : String) : Option JVal :=
  (d.find? (fun p => p.1 == k)).map Prod.snd

/-- Python `str` of a value, as interpolated into f-string error
messages (rendering of composite values is abbreviated; no claim
depends on it). -/
def pyStrOfJVal : JVal → String
  | JVal.s v => v
  | JVal.i v => Int.repr v
  | JVal.f _ => "<float>"
  | JVal.b v => if v then "True" else "False"
  | JVal.arr _ => "<list>"
  | JVal.obj _ => "<dict>"
  | JVal.null => "None"

def pyStrOfOpt : Option JVal → String
  | none => "None"
  | some v => pyStrOfJVal v

/-- Python `len`: strings, lists and dicts have a length, anything else
raises `TypeError`. -/
def pyLen : JVal → Except PyErr Nat
  | JVal.s v => Except.ok v.length
  | JVal.arr l => Except.ok l.length
  | JVal.obj d => Except.ok d.length
  | _ => Except.error (PyErr.typeError ("object has no length"))

/-- `isinstance(x, int)` conversion; Python `bool` is an `int`. -/
def pyAsInt : JVal → Option Int
  | JVal.i n => some n
  | JVal.b v => some (if v then 1 else 0)
  | _ => none

/-- `isinstance(x, (int, float))` conversion. -/
def pyAsNum : JVal → Option ℚ
  | JVal.i n => some (n : ℚ)
  | JVal.f q => some q
  | JVal.b v => some (if v then 1 else 0)
  | _ => none

/-- `[a-zA-Z0-9_-]`. -/
def isModelChar (c : Char) : Bool := c.isAlphanum || c = '_' || c = '-'

/-- `re.match(r"^[a-zA-Z0-9_-]+$", s)`: the whole string consists of
model characters (`$` also matches just before one final newline). -/
def reMatchModelName (s : String) : Bool :=
  let cs := s.data
  let core := if cs.getLast? = some '\n' then cs.dropLast else cs
  !core.isEmpty && core.all isModelChar

namespace RequestValidator

/-- The first error message of `validate_chat_request`
(`self.max_messages` is the constant 100). -/
def msgsError : String := "Invalid messages format or too many messages (max: 100)"

/-- A successfully validated request. -/
structure ValidatedRequest where
  model : String
  messages : List ChatMessage
  max_tokens : Option Int
  temperature : Option ℚ
deriving DecidableEq, Repr

/-- The per-message loop of `validate_chat_request`: dictionary check,
role check, length check, then sanitization, in source order, first
failure wins. -/
def validateMessages (max_message_length : Nat) : List JVal → Except PyErr (List ChatMessage)
  | [] => Except.ok []
  | m :: rest =>
    match m with
    | JVal.obj d =>
      match jget d ("role") with
      | some (JVal.s role) =>
        if (["user", "assistant", "system"].contains role) = false then
          Except.error (PyErr.valueError ("Invalid role: " ++ role))
        else
          match pyLen ((jget d ("content")).getD (JVal.s (""))) with
          | Except.error e => Except.error e
          | Except.ok n =>
            if max_message_length < n then
              Except.error (PyErr.valueError
                ("Message too long (max: " ++ Nat.repr max_message_length ++ ")"))
            else
              match (jget d ("content")).getD (JVal.s ("")) with
              | JVal.s content =>
                match validateMessages max_message_length rest with
                | Except.error e => Except.error e
                | Except.ok tail =>
                  Except.ok ({ role := role, content := sanitize_content content } :: tail)
              | _ => Except.error (PyErr.typeError ("expected string or bytes-like object"))
      | other =>
        Except.error (PyErr.valueError ("Invalid role: " ++ pyStrOfOpt other))
    | _ => Except.error (PyErr.valueError ("Message must be a dictionary"))

/-- The optional `max_tokens` / `temperature` checks, in source order. -/
def validateOptional (request_data : List (String × JVal)) (vr : ValidatedRequest) :
    Except PyErr ValidatedRequest :=
  let afterTokens : Except PyErr ValidatedRequest :=
    match jget request_data ("max_tokens") with
    | none => Except.ok vr
    | some v =>
      match pyAsInt v with
      | some n =>
        if n < 1 ∨ 4096 < n then Except.error (PyErr.valueError ("Invalid max_tokens value"))
        else Except.ok { vr with max_tokens := some n }
      | none => Except.error (PyErr.valueError ("Invalid max_tokens value"))
  match afterTokens with
  | Except.error e => Except.error e
  | Except.ok vr2 =>
    match jget request_data ("temperature") with
    | none => Except.ok vr2
    | some v =>
      match pyAsNum v with
      | some q =>
        if q < 0 ∨ 2 < q then Except.error (PyErr.valueError ("Invalid temperature value"))
        else Except.ok { vr2 with temperature := some q }
      | none => Except.error (PyErr.valueError ("Invalid temperature value"))

/-- `validate_chat_request`: model format, messages shape/count, the
per-message loop, then the optional parameters — in source order, first
failure wins, no accumulation. -/
def validate_chat_request (max_message_length : Nat)
    (request_data : List (String × JVal)) : Except PyErr ValidatedRequest :=
  match (jget request_data ("model")).getD (JVal.s ("")) with
  | JVal.s model =>
    if reMatchModelName model = false then
      Except.error (PyErr.valueError ("Invalid model name format"))
    else
      match (jget request_data ("messages")).getD (JVal.arr []) with
      | JVal.arr msgs =>
        if 100 < msgs.length then Except.error (PyErr.valueError msgsError)
        else
          match validateMessages max_message_length msgs with
          | Except.error e => Except.error e
          | Except.ok vmsgs =>
            validateOptional request_data
              { model := model, messages := vmsgs, max_tokens := none, temperature := none }
      | _ => Except.error (PyErr.valueError msgsError)
  | _ => Except.error (PyErr.typeError ("expected string or bytes-like object"))

end RequestValidator

example :
    RequestValidator.validate_chat_request 10000
      [("model", JVal.s ("gpt")),
       ("messages", JVal.arr [JVal.obj [("role", JVal.s ("hacker")), ("content", JVal.s ("hi"))]])] =
    Except.error (PyErr.valueError ("Invalid role: hacker")) := rfl

example :
    RequestValidator.validate_chat_request 10000
      [("model", JVal.s ("gpt")),
       ("messages", JVal.arr [JVal.obj [("role", JVal.s ("user")), ("content", JVal.s ("hi"))]]),
       ("max_tokens", JVal.i 5000)] =
    Except.error (PyErr.valueError ("Invalid max_tokens value")) := rfl

example :
    RequestValidator.validate_chat_request 10000
      [("model", JVal.s ("gpt")),
       ("messages", JVal.arr (List.replicate 101 (JVal.obj [("role", JVal.s ("user")), ("content", JVal.s ("hi"))])))] =
    Except.error (PyErr.valueError (RequestValidator.msgsError)) := rfl

/-- The mutable state of `SecurityMonitor`.  `rate_limits` is a
`defaultdict(list)` (modelled as a total function defaulting to `[]`),
`blocked_ips` a set (modelled as a duplicate-free list).  Timestamps
(`time.time()` floats) are modelled by `ℚ` and passed explicitly as the
`now` argument of each call. -/
structure SecurityMonitor where
  rate_limits : String → List ℚ
  failed_attempts : String → Nat
  blocked_ips : List String

namespace SecurityMonitor

/-- `SecurityMonitor.__init__`. -/
def init : SecurityMonitor :=
  { rate_limits := fun _ => [], failed_attempts := fun _ => 0, blocked_ips := [] }

/-- `is_blocked`: pure lookup in the block set. -/
def is_blocked (st : SecurityMonitor) (ip_address : String) : Bool :=
  st.blocked_ips.contains ip_address

/-- `block_ip`: insert into the block set (the warning log carries
`reason`; nothing else depends on it). -/
def block_ip (st : SecurityMonitor) (ip_address : String) (_reason : String) :
    SecurityMonitor :=
  { st with blocked_ips := st.blocked_ips.insert ip_address }

/-- `check_rate_limit`.  `env_rate_limit` models
`int(os.getenv("RATE_LIMIT_PER_HOUR", "100"))`; an explicit `limit` of
exactly 100 is replaced by it.  The pruned timestamp list is stored back
before the limit comparison; a rejected request's timestamp is not
recorded. -/
def check_rate_limit (env_rate_limit : Int) (now : ℚ) (st : SecurityMonitor)
    (ip_address : String) (limit : Int) (window : ℚ) : Bool × SecurityMonitor :=
  let limit := if limit = 100 then env_rate_limit else limit
  let pruned := (st.rate_limits ip_address).filter (fun t => decide (now - t < window))
  let st1 : SecurityMonitor :=
    { st with rate_limits := fun s => if s = ip_address then pruned else st.rate_limits s }
  if limit ≤ (pruned.length : Int) then
    (false, block_ip st1 ip_address ("Rate limit exceeded"))
  else
    (true,
      { st1 with
        rate_limits := fun s =>
          if s = ip_address then pruned ++ [now] else st1.rate_limits s })

/-- One public operation on the monitor state, for stating state-machine
invariants over arbitrary call sequences. -/
inductive Op where
  | check (env_rate_limit : Int) (now : ℚ) (ip_address : String) (limit : Int) (window : ℚ)
  | block (ip_address : String) (reason : String)
  | queryBlocked (ip_address : String)

/-- Effect of one operation on the state (`is_blocked` reads only). -/
def applyOp (st : SecurityMonitor) : Op → SecurityMonitor
  | Op.check env now ip limit window => (check_rate_limit env now st ip limit window).2
  | Op.block ip reason => block_ip st ip reason
  | Op.queryBlocked _ => st

/-- Six successive `check_rate_limit(id, limit=5, window=60)` calls on a
fresh monitor for one client, at times `t1 ≤ … ≤ t6`: the list of
results and the final state. -/
def sixRateLimitCalls (env : Int) (ip : String) (t1 t2 t3 t4 t5 t6 : ℚ) :
    List Bool × SecurityMonitor :=
  let p1 := check_rate_limit env t1 init ip 5 60
  let p2 := check_rate_limit env t2 p1.2 ip 5 60
  let p3 := check_rate_limit env t3 p2.2 ip 5 60
  let p4 := check_rate_limit env t4 p3.2 ip 5 60
  let p5 := check_rate_limit env t5 p4.2 ip 5 60
  let p6 := check_rate_limit env t6 p5.2 ip 5 60
  ([p1.1, p2.1, p3.1, p4.1, p5.1, p6.1], p6.2)

end SecurityMonitor

/-- Outcome of one upstream `chat.completions.create` call:
`choices[0].message.content` (possibly null) and the response's `model`
attribute on success, or one of the `openai` exception classes caught in
`SecureGaiaClient.chat_completion`, carrying the raw exception text. -/
inductive UpstreamOutcome where
  | success (content : Option String) (rmodel : Option String)
  | badRequest (e : String)
  | notFound (e : String)
  | internalError (e : String)
  | otherError (e : String)

/-- The exceptions `SecureGaiaClient.chat_completion` re-raises. -/
inductive GaiaErr where
  | valueError (msg : String)
  | runtimeError (msg : String)
deriving DecidableEq, Repr

namespace SecureGaiaClient

/-- `SecureGaiaClient.chat_completion`: maps each upstream failure to a
fixed client-facing exception and logs the original error text.  Returns
the result (or mapped exception) together with the log records. -/
def chat_completion (outcome : UpstreamOutcome) :
    Except GaiaErr (Option String × Option String) × List String :=
  match outcome with
  | UpstreamOutcome.success content rmodel => (Except.ok (content, rmodel), [])
  | UpstreamOutcome.badRequest e =>
    (Except.error (GaiaErr.valueError ("Invalid request format")),
      ["Bad request to GaiaNet: " ++ e])
  | UpstreamOutcome.notFound e =>
    (Except.error (GaiaErr.valueError ("Model not available")),
      ["Model not found: " ++ e])
  | UpstreamOutcome.internalError e =>
    (Except.error (GaiaErr.runtimeError ("Service temporarily unavailable")),
      ["GaiaNet server error: " ++ e])
  | UpstreamOutcome.otherError e =>
    (Except.error (GaiaErr.runtimeError ("Request failed")),
      ["Unexpected error: " ++ e])

end SecureGaiaClient

/-- The JSON body of a `/api/chat` response: either an error object or a
success object `{response, model, timestamp}`. -/
inductive ChatBody where
  | err (msg : String)
  | ok (response : String) (model : String) (timestamp : String)
deriving DecidableEq, Repr

/-- Result of one `/api/chat` request: HTTP status, body, the list of
upstream calls that were made (messages and model of each), and the log
records. -/
structure SyncResult where
  status : Nat
  body : ChatBody
  upstream_calls : List (List ChatMessage × String)
  logs : List String
deriving Repr

/-- Environment and collaborator configuration of the app, fixed for the
lifetime of a request: the privacy-filter flag
(`ENABLE_DATA_PRIVACY_FILTER`, compared lower-cased against `"true"`),
whether the GaiaNet client was initialized, its default model, and
`MAX_MESSAGE_LENGTH`. -/
structure AppConfig where
  privacy_flag : String
  gaia_configured : Bool
  default_model : String
  max_message_length : Nat

/-- `os.getenv("ENABLE_DATA_PRIVACY_FILTER", "true").lower() == "true"`
(ASCII lower-casing, character-wise so that kernel reduction works). -/
def privacyEnabled (cfg : AppConfig) : Bool :=
  cfg.privacy_flag.data.map Char.toLower == (String.toList ("true"))

namespace App

/-- The `chat_request` dictionary built by the `/api/chat` handler from
the JSON body `d` (simple `message` form or full `messages` form, plus
the optional parameters). -/
def buildChatRequest (cfg : AppConfig) (d : List (String × JVal)) : List (String × JVal) :=
  let pair : JVal × JVal :=
    match jget d ("message") with
    | some mv =>
      (JVal.arr [JVal.obj [("role", JVal.s ("user")), ("content", mv)]],
        (jget d ("model")).getD (JVal.s cfg.default_model))
    | none =>
      ((jget d ("messages")).getD (JVal.arr []),
        (jget d ("model")).getD (JVal.s cfg.default_model))
  [("model", pair.2), ("messages", pair.1)] ++
    (match jget d ("max_tokens") with
     | some v => [("max_tokens", v)]
     | none => []) ++
    (match jget d ("temperature") with
     | some v => [("temperature", v)]
     | none => [])

/-- The `/api/chat` handler `chat_completion` (lines 294-372 of
`app.py`).  `upstream` models the network call
`client.chat.completions.create` made inside
`SecureGaiaClient.chat_completion`, fed with the validated messages,
model name and optional parameters; `timestamp` models
`datetime.now()`; `data` is `request.get_json()` (`none` = no/invalid
JSON body). -/
def chat_completion (cfg : AppConfig)
    (upstream : List ChatMessage → String → Option Int → Option ℚ → UpstreamOutcome)
    (timestamp : String) (data : Option (List (String × JVal))) : SyncResult :=
  if cfg.gaia_configured = false then
    { status := 500, body := ChatBody.err ("GaiaNet not configured"),
      upstream_calls := [], logs := [] }
  else
    match data with
    | none =>
      { status := 400, body := ChatBody.err ("Invalid JSON"), upstream_calls := [], logs := [] }
    | some d =>
      -- `if not data:` is also taken for the falsy empty dict `{}`
      if d.isEmpty then
        { status := 400, body := ChatBody.err ("Invalid JSON"), upstream_calls := [],
          logs := [] }
      else
      match RequestValidator.validate_chat_request cfg.max_message_length
          (buildChatRequest cfg d) with
      | Except.error (PyErr.valueError m) =>
        { status := 400, body := ChatBody.err m, upstream_calls := [], logs := [] }
      | Except.error (PyErr.typeError m) =>
        -- an uncaught non-ValueError lands in the generic handler
        { status := 500, body := ChatBody.err ("Internal server error"),
          upstream_calls := [],
          logs := ["Unexpected error in chat completion: " ++ m] }
      | Except.ok vr =>
        if privacyEnabled cfg &&
            !(DataPrivacyFilter.validate_request_privacy vr.messages).isEmpty then
          { status := 400, body := ChatBody.err ("Privacy violation detected"),
            upstream_calls := [], logs := [] }
        else
          let outcome := upstream vr.messages vr.model vr.max_tokens vr.temperature
          let mapped := SecureGaiaClient.chat_completion outcome
          let calls := [(vr.messages, vr.model)]
          match mapped.1 with
          | Except.ok (content, rmodel) =>
            let content0 := content.getD ("")
            let content1 :=
              if privacyEnabled cfg then DataPrivacyFilter.redact_sensitive_data content0
              else content0
            { status := 200,
              body := ChatBody.ok content1 (rmodel.getD vr.model) timestamp,
              upstream_calls := calls, logs := mapped.2 }
          | Except.error (GaiaErr.valueError m) =>
            { status := 400, body := ChatBody.err m, upstream_calls := calls, logs := mapped.2 }
          | Except.error (GaiaErr.runtimeError m) =>
            { status := 500, body := ChatBody.err m, upstream_calls := calls, logs := mapped.2 }

/-- One server-sent event of `/api/chat/stream`. -/
inductive SSEEvent where
  | content (s : String)
  | done
  | error (s : String)
deriving DecidableEq, Repr

/-- Result of one `/api/chat/stream` request: the emitted events and the
upstream calls made. -/
structure StreamResult where
  events : List SSEEvent
  upstream_calls : List (List ChatMessage × String)
deriving Repr

/-- The `chat_request` dictionary built by the `/api/chat/stream`
handler from its query parameters. -/
def buildStreamRequest (model msg : String) : List (String × JVal) :=
  [("model", JVal.s model),
   ("messages", JVal.arr [JVal.obj [("role", JVal.s ("user")), ("content", JVal.s msg)]])]

/-- The `/api/chat/stream` handler `chat_stream` (lines 375-430 of
`app.py`).  `upstream_stream` models the streaming
`client.chat.completions.create(..., stream=True)` call: either the list
of per-chunk `delta.content` values (null deltas included) or a raised
exception with its text.  Any exception inside `generate` is caught by
its blanket handler and emitted verbatim as a single error event. -/
def chat_stream (cfg : AppConfig)
    (upstream_stream : List ChatMessage → String → Except String (List (Option String)))
    (message : Option String) (model_param : Option String) : StreamResult :=
  let model := model_param.getD (if cfg.gaia_configured then cfg.default_model else "default")
  match message with
  | none => { events := [SSEEvent.error ("Message parameter required")], upstream_calls := [] }
  | some msg =>
    -- `if not message` is also taken for the empty query-string value
    if msg = "" then
      { events := [SSEEvent.error ("Message parameter required")], upstream_calls := [] }
    else if cfg.gaia_configured = false then
      { events := [SSEEvent.error ("GaiaNet not configured")], upstream_calls := [] }
    else
      match RequestValidator.validate_chat_request cfg.max_message_length
          (buildStreamRequest model msg) with
      | Except.error (PyErr.valueError m) =>
        { events := [SSEEvent.error m], upstream_calls := [] }
      | Except.error (PyErr.typeError m) =>
        { events := [SSEEvent.error m], upstream_calls := [] }
      | Except.ok vr =>
        match upstream_stream vr.messages vr.model with
        | Except.error e =>
          { events := [SSEEvent.error e], upstream_calls := [(vr.messages, vr.model)] }
        | Except.ok chunks =>
          { events :=
              (chunks.filterMap (fun c =>
                c.map (fun t =>
                  SSEEvent.content
                    (if privacyEnabled cfg then DataPrivacyFilter.redact_sensitive_data t
                     else t)))) ++ [SSEEvent.done],
            upstream_calls := [(vr.messages, vr.model)] }

end App

/-! ### Generic engine lemmas -/

theorem pyFindAllAux_nil (m : Matcher) (fuel : Nat) (prevW : Bool) :
    pyFindAllAux m fuel prevW [] = [] := by
  cases fuel <;> rfl

theorem pySubAux_nil (m : Matcher) (repl : List Char) (fuel : Nat) (prevW : Bool) :
    pySubAux m repl fuel prevW [] = [] := by
  cases fuel <;> rfl

/-- If the matcher consumes the whole input at position 0, `finditer`
returns exactly that one match. -/
theorem pyFindAll_full_match {m : Matcher} {s mt : List Char}
    (h : m false s = some (mt, [])) (hs : s ≠ []) :
    pyFindAll m s = [mt] := by
  unfold pyFindAll
  rcases s with _ | ⟨c, cs⟩
  · exact absurd rfl hs
  · simp only [List.length_cons, pyFindAllAux, h, pyFindAllAux_nil]

/-- If the matcher consumes the whole input at position 0, `re.sub`
returns exactly the replacement. -/
theorem pySub_full_match {m : Matcher} {s mt : List Char} (repl : List Char)
    (h : m false s = some (mt, [])) (hs : s ≠ []) :
    pySub m repl s = repl := by
  unfold pySub
  rcases s with _ | ⟨c, cs⟩
  · exact absurd rfl hs
  · simp only [List.length_cons, pySubAux, h, pySubAux_nil, List.append_nil]

/-! ### Sanitizer character lemmas -/

theorem mem_pyStrip {c : Char} {l : List Char} (h : c ∈ pyStrip l) : c ∈ l := by
  unfold pyStrip at h
  rw [List.mem_reverse] at h
  have h2 := (List.dropWhile_sublist isSpaceChar).subset h
  rw [List.mem_reverse] at h2
  exact (List.dropWhile_sublist isSpaceChar).subset h2

/-- Every character surviving `sanitize_content` is in the whitelist of
its final character filter. -/
theorem sanitize_content_chars {s : String} {c : Char}
    (h : c ∈ (RequestValidator.sanitize_content s).data) :
    isAllowedSanitizedChar c = true := by
  have h2 : c ∈ pyStrip ((removeJavascript (removeScriptTags s.data)).filter
      isAllowedSanitizedChar) := h
  exact (List.mem_filter.mp (mem_pyStrip h2)).2

/-! ### Email pattern lemmas -/

/-- The email pattern cannot match in a text without `@`. -/
theorem matchEmail_eq_none {prevW : Bool} {s : List Char} (h : '@' ∉ s) :
    matchEmail prevW s = none := by
  have hdw : expectChar '@' (s.dropWhile isEmailLocalChar) = none := by
    rcases hd : s.dropWhile isEmailLocalChar with _ | ⟨c, r2⟩
    · rfl
    · have hc : c ∈ s := (List.dropWhile_sublist isEmailLocalChar).subset
        (by rw [hd]; exact List.mem_cons_self c r2)
      have hne : ¬(c = '@') := fun e => h (e ▸ hc)
      simp [expectChar, hne]
  simp only [matchEmail]
  rw [hdw]
  simp

theorem pyFindAllAux_email_nil (fuel : Nat) : ∀ (prevW : Bool) (s : List Char),
    '@' ∉ s → pyFindAllAux matchEmail fuel prevW s = [] := by
  induction fuel with
  | zero => intro prevW s _; rfl
  | succ n ih =>
    intro prevW s h
    rcases s with _ | ⟨c, cs⟩
    · rfl
    · simp only [pyFindAllAux, matchEmail_eq_none h]
      exact ih (isWordChar c) cs (fun hm => h (List.mem_cons_of_mem c hm))

theorem pyFindAll_email_nil {s : List Char} (h : '@' ∉ s) :
    pyFindAll matchEmail s = [] :=
  pyFindAllAux_email_nil s.length false s h

/-- No detection result is of kind `email` on an `@`-free text. -/
theorem detect_fst_ne_email {t : String} (h : '@' ∉ t.data) :
    ∀ p ∈ DataPrivacyFilter.detect_sensitive_data t, p.1 ≠ "email" := by
  intro p hp
  have hE : pyFindAll matchEmail t.data = [] := pyFindAll_email_nil h
  simp only [DataPrivacyFilter.detect_sensitive_data, DataPrivacyFilter.patternList,
    List.flatMap_cons, List.flatMap_nil, List.append_nil, List.mem_append, List.mem_map, hE,
    List.map_nil, List.not_mem_nil, false_and, exists_false, or_false, false_or] at hp
  rcases hp with ⟨mt, _, rfl⟩ | ⟨mt, _, rfl⟩ | ⟨mt, _, rfl⟩ | ⟨mt, _, rfl⟩ |
    ⟨mt, _, rfl⟩ | ⟨mt, _, rfl⟩ <;> simp

/-- `sanitize_content` removes every `@` (not whitelisted). -/
theorem at_not_mem_sanitize (s : String) :
    '@' ∉ (RequestValidator.sanitize_content s).data := fun hm =>
  absurd (sanitize_content_chars hm) (by decide)

/-! ### Validator extraction lemmas -/

/-- Every message produced by the validation loop carries sanitized
content. -/
theorem validateMessages_content {maxLen : Nat} : ∀ {msgs : List JVal}
    {vmsgs : List ChatMessage},
    RequestValidator.validateMessages maxLen msgs = Except.ok vmsgs →
    ∀ m ∈ vmsgs, ∃ c, m.content = RequestValidator.sanitize_content c := by
  intro msgs
  induction msgs with
  | nil =>
    intro vmsgs h m hm
    simp only [RequestValidator.validateMessages, Except.ok.injEq] at h
    subst h
    cases hm
  | cons hd tl ih =>
    intro vmsgs h m hm
    simp only [RequestValidator.validateMessages] at h
    split at h
    · split at h
      · split at h
        · exact absurd h (by simp)
        · split at h
          · exact absurd h (by simp)
          · split at h
            · exact absurd h (by simp)
            · split at h
              · split at h
                · exact absurd h (by simp)
                · rename_i tail htail
                  rw [Except.ok.injEq] at h
                  subst h
                  rcases List.mem_cons.mp hm with hm2 | hm2
                  · subst hm2; exact ⟨_, rfl⟩
                  · exact ih htail m hm2
              · exact absurd h (by simp)
      · exact absurd h (by simp)
    · exact absurd h (by simp)

/-- `validateOptional` never changes the validated message list. -/
theorem validateOptional_messages {rd : List (String × JVal)}
    {vr0 vr : RequestValidator.ValidatedRequest}
    (h : RequestValidator.validateOptional rd vr0 = Except.ok vr) :
    vr.messages = vr0.messages := by
  simp only [RequestValidator.validateOptional] at h
  split at h
  · exact absurd h (by simp)
  case _ vr2 hto =>
    have h2 : vr2.messages = vr0.messages := by
      split at hto
      · rw [Except.ok.injEq] at hto; subst hto; rfl
      · split at hto
        · split at hto
          · exact absurd hto (by simp)
          · rw [Except.ok.injEq] at hto; subst hto; rfl
        · exact absurd hto (by simp)
    rw [← h2]
    split at h
    · rw [Except.ok.injEq] at h; subst h; rfl
    · split at h
      · split at h
        · exact absurd h (by simp)
        · rw [Except.ok.injEq] at h; subst h; rfl
      · exact absurd h (by simp)

/-- A successful `validate_chat_request` obtains its messages from the
validation loop. -/
theorem validate_ok_messages {maxLen : Nat} {d : List (String × JVal)}
    {vr : RequestValidator.ValidatedRequest}
    (h : RequestValidator.validate_chat_request maxLen d = Except.ok vr) :
    ∃ msgs, RequestValidator.validateMessages maxLen msgs = Except.ok vr.messages := by
  simp only [RequestValidator.validate_chat_request] at h
  split at h
  · split at h
    · exact absurd h (by simp)
    · split at h
      · split at h
        · exact absurd h (by simp)
        · split at h
          · exact absurd h (by simp)
          · rename_i vmsgs hmsgs
            have h2 : vr.messages = vmsgs := validateOptional_messages h
            exact ⟨_, by rw [h2]; exact hmsgs⟩
      · exact absurd h (by simp)
  · exact absurd h (by simp)

/-- A successfully validated request whose `messages` field is the
empty list has no validated messages (the shape of the request the
`/api/chat` handler builds from an empty JSON body). -/
theorem validate_model_only_messages_nil {maxLen : Nat} {dm : String}
    {vr : RequestValidator.ValidatedRequest}
    (h : RequestValidator.validate_chat_request maxLen
      [("model", JVal.s dm), ("messages", JVal.arr [])] = Except.ok vr) :
    vr.messages = [] := by
  simp only [RequestValidator.validate_chat_request] at h
  split at h
  · split at h
    · exact absurd h (by simp)
    · split at h
      · split at h
        · exact absurd h (by simp)
        · split at h
          · exact absurd h (by simp)
          · rename_i msgs2 heqm hcnt xs vmsgs hmsgs
            have h3 := heqm
            rw [show (jget [("model", JVal.s dm), ("messages", JVal.arr [])]
              ("messages")).getD (JVal.arr []) = JVal.arr [] from rfl] at h3
            injection h3 with h4
            subst h4
            rw [show RequestValidator.validateMessages maxLen [] =
              Except.ok [] from rfl] at hmsgs
            rw [Except.ok.injEq] at hmsgs
            subst hmsgs
            rw [validateOptional_messages h]
      · exact absurd h (by simp)
  · exact absurd h (by simp)

/-! ### Rate limiter lemmas -/

theorem is_blocked_block_ip {st : SecurityMonitor} {ip : String} (ip2 reason : String)
    (h : SecurityMonitor.is_blocked st ip = true) :
    SecurityMonitor.is_blocked (SecurityMonitor.block_ip st ip2 reason) ip = true := by
  simp only [SecurityMonitor.is_blocked, SecurityMonitor.block_ip] at *
  have hm : ip ∈ st.blocked_ips := List.elem_iff.mp h
  exact List.elem_iff.mpr (List.mem_insert_iff.mpr (Or.inr hm))

theorem is_blocked_check {env : Int} {now : ℚ} {st : SecurityMonitor} {ip : String}
    {limit : Int} {window : ℚ} {ip2 : String}
    (h : SecurityMonitor.is_blocked st ip2 = true) :
    SecurityMonitor.is_blocked
      (SecurityMonitor.check_rate_limit env now st ip limit window).2 ip2 = true := by
  simp only [SecurityMonitor.check_rate_limit]
  split <;> split <;>
    simp_all [SecurityMonitor.is_blocked, SecurityMonitor.block_ip, List.elem_iff,
      List.mem_insert_iff]

/-- An under-limit `check_rate_limit` call with no prunable timestamps
returns true, appends the timestamp, and blocks nobody. -/
theorem crl_allow (env : Int) (now : ℚ) (st : SecurityMonitor) (ip : String)
    (limit : Int) (window : ℚ)
    (hall : ∀ t ∈ st.rate_limits ip, now - t < window)
    (hlt : ((st.rate_limits ip).length : Int) < (if limit = 100 then env else limit)) :
    (SecurityMonitor.check_rate_limit env now st ip limit window).1 = true ∧
    (SecurityMonitor.check_rate_limit env now st ip limit window).2.rate_limits ip =
      st.rate_limits ip ++ [now] ∧
    (SecurityMonitor.check_rate_limit env now st ip limit window).2.blocked_ips =
      st.blocked_ips := by
  have hf : (st.rate_limits ip).filter (fun t => decide (now - t < window)) =
      st.rate_limits ip :=
    List.filter_eq_self.mpr (fun a ha => decide_eq_true (hall a ha))
  have hcond : ¬((if limit = 100 then env else limit) ≤
      (((st.rate_limits ip).length : Nat) : Int)) := not_le.mpr hlt
  refine ⟨?_, ?_, ?_⟩ <;>
    simp only [SecurityMonitor.check_rate_limit, hf] <;>
    rw [if_neg hcond] <;>
    simp

/-- An at-limit `check_rate_limit` call with no prunable timestamps
returns false, records nothing, and blocks the client. -/
theorem crl_deny (env : Int) (now : ℚ) (st : SecurityMonitor) (ip : String)
    (limit : Int) (window : ℚ)
    (hall : ∀ t ∈ st.rate_limits ip, now - t < window)
    (hge : (if limit = 100 then env else limit) ≤ ((st.rate_limits ip).length : Int)) :
    (SecurityMonitor.check_rate_limit env now st ip limit window).1 = false ∧
    (SecurityMonitor.check_rate_limit env now st ip limit window).2.rate_limits ip =
      st.rate_limits ip ∧
    (SecurityMonitor.check_rate_limit env now st ip limit window).2.blocked_ips =
      st.blocked_ips.insert ip := by
  have hf : (st.rate_limits ip).filter (fun t => decide (now - t < window)) =
      st.rate_limits ip :=
    List.filter_eq_self.mpr (fun a ha => decide_eq_true (hall a ha))
  refine ⟨?_, ?_, ?_⟩ <;>
    simp only [SecurityMonitor.check_rate_limit, hf] <;>
    rw [if_pos hge] <;>
    simp [SecurityMonitor.block_ip]

/-! ### Credit-card pattern lemmas -/

theorem isWordChar_of_digit {c : Char} (h : c.isDigit = true) : isWordChar c = true := by
  simp [isWordChar, h]

theorem isSpaceChar_of_digit {c : Char} (h : c.isDigit = true) : isSpaceChar c = false := by
  have e1 : c ≠ ' ' := by rintro rfl; exact absurd h (by decide)
  have e2 : c ≠ '\t' := by rintro rfl; exact absurd h (by decide)
  have e3 : c ≠ '\n' := by rintro rfl; exact absurd h (by decide)
  have e4 : c ≠ '\r' := by rintro rfl; exact absurd h (by decide)
  have e5 : c ≠ '\x0b' := by rintro rfl; exact absurd h (by decide)
  have e6 : c ≠ '\x0c' := by rintro rfl; exact absurd h (by decide)
  simp [isSpaceChar, e1, e2, e3, e4, e5, e6]

theorem isCcSep_of_digit {c : Char} (h : c.isDigit = true) : isCcSep c = false := by
  have e1 : c ≠ '-' := by rintro rfl; exact absurd h (by decide)
  simp [isCcSep, e1, isSpaceChar_of_digit h]

/-- `headIsWord` on a cons cell. -/
theorem headIsWord_cons (c : Char) (cs : List Char) :
    headIsWord (c :: cs) = isWordChar c := rfl

/-- The credit-card matcher consumes a leading card number — 16 digits
in 4 groups of 4, each group separator independently absent, `-` or a
space — whenever the following text starts with a non-word character
(or ends), leaving that text untouched. -/
theorem matchCreditCard_prefix
    (a1 a2 a3 a4 b1 b2 b3 b4 c1 c2 c3 c4 d1 d2 d3 d4 : Char) (s1 s2 s3 : List Char)
    (v : List Char)
    (ha1 : a1.isDigit = true) (ha2 : a2.isDigit = true) (ha3 : a3.isDigit = true)
    (ha4 : a4.isDigit = true) (hb1 : b1.isDigit = true) (hb2 : b2.isDigit = true)
    (hb3 : b3.isDigit = true) (hb4 : b4.isDigit = true) (hc1 : c1.isDigit = true)
    (hc2 : c2.isDigit = true) (hc3 : c3.isDigit = true) (hc4 : c4.isDigit = true)
    (hd1 : d1.isDigit = true) (hd2 : d2.isDigit = true) (hd3 : d3.isDigit = true)
    (hd4 : d4.isDigit = true)
    (hs1 : s1 = [] ∨ s1 = ['-'] ∨ s1 = [' '])
    (hs2 : s2 = [] ∨ s2 = ['-'] ∨ s2 = [' '])
    (hs3 : s3 = [] ∨ s3 = ['-'] ∨ s3 = [' '])
    (hv : headIsWord v = false) :
    matchCreditCard false
      ([a1, a2, a3, a4] ++ s1 ++ [b1, b2, b3, b4] ++ s2 ++ [c1, c2, c3, c4] ++ s3 ++
        [d1, d2, d3, d4] ++ v) =
      some ([a1, a2, a3, a4] ++ s1 ++ [b1, b2, b3, b4] ++ s2 ++ [c1, c2, c3, c4] ++ s3 ++
        [d1, d2, d3, d4], v) := by
  have sepDash : isCcSep '-' = true := by decide
  have sepSpace : isCcSep ' ' = true := by decide
  rcases hs1 with rfl | rfl | rfl <;> rcases hs2 with rfl | rfl | rfl <;>
    rcases hs3 with rfl | rfl | rfl <;>
    simp [matchCreditCard, ccGroup, takeDigits4, wordBoundary, headIsWord_cons, hv,
      isWordChar_of_digit, isCcSep_of_digit, sepDash, sepSpace, ha1, ha2, ha3, ha4,
      hb1, hb2, hb3, hb4, hc1, hc2, hc3, hc4, hd1, hd2, hd3, hd4]

/-- The whole-string special case of `matchCreditCard_prefix`. -/
theorem matchCreditCard_full
    (a1 a2 a3 a4 b1 b2 b3 b4 c1 c2 c3 c4 d1 d2 d3 d4 : Char) (s1 s2 s3 : List Char)
    (ha1 : a1.isDigit = true) (ha2 : a2.isDigit = true) (ha3 : a3.isDigit = true)
    (ha4 : a4.isDigit = true) (hb1 : b1.isDigit = true) (hb2 : b2.isDigit = true)
    (hb3 : b3.isDigit = true) (hb4 : b4.isDigit = true) (hc1 : c1.isDigit = true)
    (hc2 : c2.isDigit = true) (hc3 : c3.isDigit = true) (hc4 : c4.isDigit = true)
    (hd1 : d1.isDigit = true) (hd2 : d2.isDigit = true) (hd3 : d3.isDigit = true)
    (hd4 : d4.isDigit = true)
    (hs1 : s1 = [] ∨ s1 = ['-'] ∨ s1 = [' '])
    (hs2 : s2 = [] ∨ s2 = ['-'] ∨ s2 = [' '])
    (hs3 : s3 = [] ∨ s3 = ['-'] ∨ s3 = [' ']) :
    matchCreditCard false
      ([a1, a2, a3, a4] ++ s1 ++ [b1, b2, b3, b4] ++ s2 ++ [c1, c2, c3, c4] ++ s3 ++
        [d1, d2, d3, d4]) =
      some ([a1, a2, a3, a4] ++ s1 ++ [b1, b2, b3, b4] ++ s2 ++ [c1, c2, c3, c4] ++ s3 ++
        [d1, d2, d3, d4], []) := by
  have h := matchCreditCard_prefix a1 a2 a3 a4 b1 b2 b3 b4 c1 c2 c3 c4 d1 d2 d3 d4
    s1 s2 s3 [] ha1 ha2 ha3 ha4 hb1 hb2 hb3 hb4 hc1 hc2 hc3 hc4 hd1 hd2 hd3 hd4
    hs1 hs2 hs3 rfl
  simpa using h

/-- A card of the accepted shape matches as a prefix before any text
starting non-word (or ending). -/
theorem ccCardShape_match {c : List Char} (h : ccCardShape c) (v : List Char)
    (hv : headIsWord v = false) :
    matchCreditCard false (c ++ v) = some (c, v) := by
  obtain ⟨a1, a2, a3, a4, b1, b2, b3, b4, c1, c2, c3, c4, d1, d2, d3, d4, s1, s2, s3,
    ⟨ha1, ha2, ha3, ha4, hb1, hb2, hb3, hb4, hc1, hc2, hc3, hc4, hd1, hd2, hd3, hd4⟩,
    hs1, hs2, hs3, hc⟩ := h
  subst hc
  exact matchCreditCard_prefix a1 a2 a3 a4 b1 b2 b3 b4 c1 c2 c3 c4 d1 d2 d3 d4
    s1 s2 s3 v ha1 ha2 ha3 ha4 hb1 hb2 hb3 hb4 hc1 hc2 hc3 hc4 hd1 hd2 hd3 hd4
    hs1 hs2 hs3 hv

theorem ccCardShape_ne_nil {c : List Char} (h : ccCardShape c) : c ≠ [] := by
  obtain ⟨a1, a2, a3, a4, b1, b2, b3, b4, c1, c2, c3, c4, d1, d2, d3, d4, s1, s2, s3,
    _, _, _, _, hc⟩ := h
  subst hc
  simp

/-- `\d{4}` fails when the first character is not a digit. -/
theorem takeDigits4_none_of_head {c : Char} (cs : List Char) (hc : c.isDigit = false) :
    takeDigits4 (c :: cs) = none := by
  cases cs with
  | nil => rfl
  | cons c2 cs2 =>
    cases cs2 with
    | nil => rfl
    | cons c3 cs3 =>
      cases cs3 with
      | nil => rfl
      | cons c4 r => simp [takeDigits4, hc]

/-- The credit-card pattern cannot match at a non-digit character. -/
theorem matchCreditCard_none_of_head {prevW : Bool} {c : Char} (cs : List Char)
    (hc : c.isDigit = false) :
    matchCreditCard prevW (c :: cs) = none := by
  simp [matchCreditCard, ccGroup, takeDigits4_none_of_head cs hc]

theorem getLast_cons_isSome (y : Char) (ys : List Char) :
    ∃ c, (y :: ys).getLast? = some c := by
  induction ys generalizing y with
  | nil => exact ⟨y, rfl⟩
  | cons z zs ih =>
    obtain ⟨c, hc⟩ := ih z
    exact ⟨c, by rw [List.getLast?_cons_cons]; exact hc⟩

theorem lastIsWord_cons (p : Bool) (x : Char) (xs : List Char) :
    lastIsWord p (x :: xs) = lastIsWord (isWordChar x) xs := by
  cases xs with
  | nil => rfl
  | cons y ys =>
    obtain ⟨c, hc⟩ := getLast_cons_isSome y ys
    simp [lastIsWord, List.getLast?_cons_cons, hc]

theorem lastIsWord_of_ne_nil (p q : Bool) {f : List Char} (h : f ≠ []) :
    lastIsWord p f = lastIsWord q f := by
  cases f with
  | nil => exact absurd rfl h
  | cons x xs => rw [lastIsWord_cons, lastIsWord_cons]

/-- One scan step over a successful match. -/
theorem pyFindAllAux_step (m : Matcher) (fuel : Nat) (prevW : Bool) {s mt r : List Char}
    (hs : s ≠ []) (hm : m prevW s = some (mt, r)) (hfuel : fuel ≠ 0) :
    pyFindAllAux m fuel prevW s =
      mt :: pyFindAllAux m (fuel - 1) (lastIsWord prevW mt) r := by
  rcases s with _ | ⟨c, cs⟩
  · exact absurd rfl hs
  · rcases fuel with _ | fu
    · exact absurd rfl hfuel
    · simp only [pyFindAllAux, hm, Nat.add_sub_cancel]

/-- One substitution step over a successful match. -/
theorem pySubAux_step (m : Matcher) (repl : List Char) (fuel : Nat) (prevW : Bool)
    {s mt r : List Char} (hs : s ≠ []) (hm : m prevW s = some (mt, r))
    (hfuel : fuel ≠ 0) :
    pySubAux m repl fuel prevW s =
      repl ++ pySubAux m repl (fuel - 1) (lastIsWord prevW mt) r := by
  rcases s with _ | ⟨c, cs⟩
  · exact absurd rfl hs
  · rcases fuel with _ | fu
    · exact absurd rfl hfuel
    · simp only [pySubAux, hm, Nat.add_sub_cancel]

/-- One scan step over a failed match. -/
theorem pyFindAllAux_none_step (m : Matcher) (fu : Nat) (prevW : Bool) (c : Char)
    (cs : List Char) (hm : m prevW (c :: cs) = none) :
    pyFindAllAux m (fu + 1) prevW (c :: cs) = pyFindAllAux m fu (isWordChar c) cs := by
  simp only [pyFindAllAux, hm]

/-- One substitution step over a failed match. -/
theorem pySubAux_none_step (m : Matcher) (repl : List Char) (fu : Nat) (prevW : Bool)
    (c : Char) (cs : List Char) (hm : m prevW (c :: cs) = none) :
    pySubAux m repl (fu + 1) prevW (c :: cs) =
      c :: pySubAux m repl fu (isWordChar c) cs := by
  simp only [pySubAux, hm]

/-- Scanning a digit-free filler finds no credit-card match and just
moves over it. -/
theorem ccScanFind_filler (f : List Char) : ∀ (rest : List Char) (fuel : Nat)
    (prevW : Bool), (∀ x ∈ f, x.isDigit = false) → f.length + rest.length ≤ fuel →
    pyFindAllAux matchCreditCard fuel prevW (f ++ rest) =
      pyFindAllAux matchCreditCard (fuel - f.length) (lastIsWord prevW f) rest := by
  induction f with
  | nil => intro rest fuel prevW _ _; simp [lastIsWord]
  | cons x xs ih =>
    intro rest fuel prevW hd hfuel
    rcases fuel with _ | fu
    · simp only [List.length_cons] at hfuel; omega
    · have hx : x.isDigit = false := hd x (List.mem_cons_self x xs)
      rw [List.cons_append,
        pyFindAllAux_none_step matchCreditCard fu prevW x (xs ++ rest)
          (matchCreditCard_none_of_head (xs ++ rest) hx),
        ih rest fu (isWordChar x) (fun y hy => hd y (List.mem_cons_of_mem x hy))
          (by simp only [List.length_cons] at hfuel; omega),
        lastIsWord_cons]
      have hlen : fu + 1 - (x :: xs).length = fu - xs.length := by
        simp only [List.length_cons]; omega
      rw [hlen]

/-- Substituting over a digit-free filler copies it unchanged. -/
theorem ccScanSub_filler (tag : List Char) (f : List Char) : ∀ (rest : List Char)
    (fuel : Nat) (prevW : Bool),
    (∀ x ∈ f, x.isDigit = false) → f.length + rest.length ≤ fuel →
    pySubAux matchCreditCard tag fuel prevW (f ++ rest) =
      f ++ pySubAux matchCreditCard tag (fuel - f.length) (lastIsWord prevW f) rest := by
  induction f with
  | nil => intro rest fuel prevW _ _; simp [lastIsWord]
  | cons x xs ih =>
    intro rest fuel prevW hd hfuel
    rcases fuel with _ | fu
    · simp only [List.length_cons] at hfuel; omega
    · have hx : x.isDigit = false := hd x (List.mem_cons_self x xs)
      rw [List.cons_append,
        pySubAux_none_step matchCreditCard tag fu prevW x (xs ++ rest)
          (matchCreditCard_none_of_head (xs ++ rest) hx),
        ih rest fu (isWordChar x) (fun y hy => hd y (List.mem_cons_of_mem x hy))
          (by simp only [List.length_cons] at hfuel; omega),
        lastIsWord_cons]
      have hlen : fu + 1 - (x :: xs).length = fu - xs.length := by
        simp only [List.length_cons]; omega
      rw [hlen, List.cons_append]

/-- Scanning a well-formed chain yields exactly the card sequences, in
order. -/
theorem ccScanFind_chain (segs : List (List Char × List Char)) : ∀ (fuel : Nat),
    ccChainOk segs → (ccRender segs).length ≤ fuel →
    pyFindAllAux matchCreditCard fuel false (ccRender segs) = segs.map Prod.fst := by
  induction segs with
  | nil => intro fuel _ _; exact pyFindAllAux_nil _ _ _
  | cons p rest ih =>
    intro fuel hchain hfuel
    obtain ⟨hshape, hfd, hfh, hflast, hrest⟩ := hchain
    have hcne : p.1 ≠ [] := ccCardShape_ne_nil hshape
    have hp1 : 0 < p.1.length := List.length_pos.mpr hcne
    have hv : headIsWord (p.2 ++ ccRender rest) = false := by
      rcases hp2 : p.2 with _ | ⟨x, xs⟩
      · rcases hflast with hre | hl
        · rw [hre]; rfl
        · rw [hp2] at hl; exact absurd hl (by decide)
      · rw [hp2] at hfh
        simpa [headIsWord_cons] using hfh
    have hmatch := ccCardShape_match hshape (p.2 ++ ccRender rest) hv
    have hrender : ccRender (p :: rest) = p.1 ++ (p.2 ++ ccRender rest) := by
      simp [ccRender, List.append_assoc]
    rw [hrender] at hfuel ⊢
    simp only [List.length_append] at hfuel
    have hsne : p.1 ++ (p.2 ++ ccRender rest) ≠ [] := by
      intro h0
      exact hcne (List.append_eq_nil.mp h0).1
    rw [pyFindAllAux_step matchCreditCard fuel false hsne hmatch (by omega)]
    rw [ccScanFind_filler p.2 (ccRender rest) (fuel - 1) (lastIsWord false p.1) hfd
      (by omega)]
    by_cases hre : rest = []
    · subst hre
      simp [ccRender, pyFindAllAux_nil]
    · have hfne : p.2 ≠ [] := by
        rcases hflast with h0 | hl
        · exact absurd h0 hre
        · intro h0; rw [h0] at hl; exact absurd hl (by decide)
      have hl2 : lastIsWord (lastIsWord false p.1) p.2 = false := by
        rw [lastIsWord_of_ne_nil _ true hfne]
        rcases hflast with h0 | hl
        · exact absurd h0 hre
        · exact hl
      rw [hl2]
      rw [ih (fuel - 1 - p.2.length) hrest (by omega)]
      simp

/-- Substituting over a well-formed chain replaces each card with the
tag and copies every filler. -/
theorem ccScanSub_chain (tag : List Char) (segs : List (List Char × List Char)) :
    ∀ (fuel : Nat), ccChainOk segs → (ccRender segs).length ≤ fuel →
    pySubAux matchCreditCard tag fuel false (ccRender segs) = ccRenderSub tag segs := by
  induction segs with
  | nil => intro fuel _ _; exact pySubAux_nil _ _ _ _
  | cons p rest ih =>
    intro fuel hchain hfuel
    obtain ⟨hshape, hfd, hfh, hflast, hrest⟩ := hchain
    have hcne : p.1 ≠ [] := ccCardShape_ne_nil hshape
    have hp1 : 0 < p.1.length := List.length_pos.mpr hcne
    have hv : headIsWord (p.2 ++ ccRender rest) = false := by
      rcases hp2 : p.2 with _ | ⟨x, xs⟩
      · rcases hflast with hre | hl
        · rw [hre]; rfl
        · rw [hp2] at hl; exact absurd hl (by decide)
      · rw [hp2] at hfh
        simpa [headIsWord_cons] using hfh
    have hmatch := ccCardShape_match hshape (p.2 ++ ccRender rest) hv
    have hrender : ccRender (p :: rest) = p.1 ++ (p.2 ++ ccRender rest) := by
      simp [ccRender, List.append_assoc]
    rw [hrender] at hfuel ⊢
    simp only [List.length_append] at hfuel
    have hsne : p.1 ++ (p.2 ++ ccRender rest) ≠ [] := by
      intro h0
      exact hcne (List.append_eq_nil.mp h0).1
    rw [pySubAux_step matchCreditCard tag fuel false hsne hmatch (by omega)]
    rw [ccScanSub_filler tag p.2 (ccRender rest) (fuel - 1) (lastIsWord false p.1) hfd
      (by omega)]
    by_cases hre : rest = []
    · subst hre
      simp [ccRender, ccRenderSub, pySubAux_nil]
    · have hfne : p.2 ≠ [] := by
        rcases hflast with h0 | hl
        · exact absurd h0 hre
        · intro h0; rw [h0] at hl; exact absurd hl (by decide)
      have hl2 : lastIsWord (lastIsWord false p.1) p.2 = false := by
        rw [lastIsWord_of_ne_nil _ true hfne]
        rcases hflast with h0 | hl
        · exact absurd h0 hre
        · exact hl
      rw [hl2]
      rw [ih (fuel - 1 - p.2.length) hrest (by omega)]
      simp [ccRenderSub, List.append_assoc]

/-- `finditer` over a leading digit-free filler followed by a
well-formed chain: exactly the card sequences are found, in order. -/
theorem ccFindAll_text (f0 : List Char) (segs : List (List Char × List Char))
    (hf0d : ∀ x ∈ f0, x.isDigit = false) (hf0w : lastIsWord false f0 = false)
    (hchain : ccChainOk segs) :
    pyFindAll matchCreditCard (f0 ++ ccRender segs) = segs.map Prod.fst := by
  unfold pyFindAll
  rw [ccScanFind_filler f0 (ccRender segs) (f0 ++ ccRender segs).length false hf0d
    (by simp [List.length_append])]
  rw [hf0w]
  exact ccScanFind_chain segs _ hchain (by simp [List.length_append])

/-- `re.sub` of the credit-card pattern over such a text: each card is
replaced by the tag, everything else is copied unchanged. -/
theorem ccSub_text (tag : List Char) (f0 : List Char)
    (segs : List (List Char × List Char))
    (hf0d : ∀ x ∈ f0, x.isDigit = false) (hf0w : lastIsWord false f0 = false)
    (hchain : ccChainOk segs) :
    pySub matchCreditCard tag (f0 ++ ccRender segs) = f0 ++ ccRenderSub tag segs := by
  unfold pySub
  rw [ccScanSub_filler tag f0 (ccRender segs) (f0 ++ ccRender segs).length false hf0d
    (by simp [List.length_append])]
  rw [hf0w]
  rw [ccScanSub_chain tag segs _ hchain (by simp [List.length_append])]

/-- Filtering for a different kind empties a mapped finding segment. -/
theorem filter_key_of_ne (k k2 : String) (h : (k == k2) = false) (l : List (List Char)) :
    ((l.map (fun mt => (k, String.mk mt))).filter (fun p => p.1 == k2)) = [] := by
  induction l with
  | nil => rfl
  | cons x xs ih => simpa [List.filter, h] using ih

/-- Filtering for the same kind keeps a mapped finding segment whole. -/
theorem filter_key_of_eq (k : String) (l : List (List Char)) :
    ((l.map (fun mt => (k, String.mk mt))).filter (fun p => p.1 == k)) =
      l.map (fun mt => (k, String.mk mt)) := by
  induction l with
  | nil => rfl
  | cons x xs ih => simp [List.filter, ih]

/-! ### Claim theorems -/

/-- **C5** (confirmed): the block set is append-only for the process
lifetime — once `is_blocked` holds for a client id it keeps holding
after any sequence of `check_rate_limit` / `block_ip` / `is_blocked`
operations; no operation removes an id from the block set. -/
theorem block_set_append_only (st : SecurityMonitor) (ip : String)
    (ops : List SecurityMonitor.Op)
    (h : SecurityMonitor.is_blocked st ip = true) :
    SecurityMonitor.is_blocked (ops.foldl SecurityMonitor.applyOp st) ip = true := by
  induction ops generalizing st with
  | nil => exact h
  | cons op tl ih =>
    rw [List.foldl_cons]
    apply ih
    cases op with
    | check env now ip2 l w => exact is_blocked_check h
    | block ip2 r => exact is_blocked_block_ip ip2 r h
    | queryBlocked _ => exact h

/-- Witness for `block_set_append_only`: a blocked client stays blocked
across a concrete sequence of operations. -/
theorem block_set_append_only_witness :
    SecurityMonitor.is_blocked
        (SecurityMonitor.block_ip SecurityMonitor.init ("c") ("r")) ("c") = true ∧
    SecurityMonitor.is_blocked
      (List.foldl SecurityMonitor.applyOp
        (SecurityMonitor.block_ip SecurityMonitor.init ("c") ("r"))
        [SecurityMonitor.Op.check 100 0 ("c") 5 60,
         SecurityMonitor.Op.block ("d") ("s"),
         SecurityMonitor.Op.queryBlocked ("c")]) ("c") = true :=
  ⟨by decide, block_set_append_only _ _ _ (by decide)⟩

set_option maxHeartbeats 2000000 in
/-- **C4** (confirmed): on a fresh rate limiter, five
`check_rate_limit(id, limit=5, window=60)` calls (at non-decreasing
times spanning less than the window) return true; the sixth returns
false, its timestamp is not recorded (the client's list still holds
exactly the first five timestamps), and `is_blocked` is true thereafter
— `is_blocked` is a pure lookup in the block set, so it stays true after
any further `check_rate_limit` call at any later time, in particular
after the 60-second window has elapsed. -/
theorem rate_limit_five_then_block (env : Int) (ip : String) (t1 t2 t3 t4 t5 t6 : ℚ)
    (h12 : t1 ≤ t2) (h23 : t2 ≤ t3) (h34 : t3 ≤ t4) (h45 : t4 ≤ t5) (h56 : t5 ≤ t6)
    (hspan : t6 - t1 < 60) :
    (SecurityMonitor.sixRateLimitCalls env ip t1 t2 t3 t4 t5 t6).1 =
      [true, true, true, true, true, false] ∧
    SecurityMonitor.is_blocked
      (SecurityMonitor.sixRateLimitCalls env ip t1 t2 t3 t4 t5 t6).2 ip = true ∧
    (SecurityMonitor.sixRateLimitCalls env ip t1 t2 t3 t4 t5 t6).2.rate_limits ip =
      [t1, t2, t3, t4, t5] ∧
    (∀ (env2 : Int) (now2 : ℚ) (l2 : Int) (w2 : ℚ),
      SecurityMonitor.is_blocked
        (SecurityMonitor.check_rate_limit env2 now2
          (SecurityMonitor.sixRateLimitCalls env ip t1 t2 t3 t4 t5 t6).2 ip l2 w2).2
        ip = true) := by
  have hlim : ((5 : Int) = 100) = False := by norm_num
  obtain ⟨b1, r1, k1⟩ :=
    crl_allow env t1 SecurityMonitor.init ip 5 60
      (by simp [SecurityMonitor.init]) (by simp [SecurityMonitor.init, hlim])
  obtain ⟨b2, r2, k2⟩ :=
    crl_allow env t2 (SecurityMonitor.check_rate_limit env t1 SecurityMonitor.init ip 5 60).2
      ip 5 60
      (by rw [r1]; simp [SecurityMonitor.init]; linarith)
      (by rw [r1]; simp [SecurityMonitor.init, hlim])
  obtain ⟨b3, r3, k3⟩ :=
    crl_allow env t3
      (SecurityMonitor.check_rate_limit env t2
        (SecurityMonitor.check_rate_limit env t1 SecurityMonitor.init ip 5 60).2 ip 5 60).2
      ip 5 60
      (by rw [r2, r1]; simp [SecurityMonitor.init]; constructor <;> linarith)
      (by rw [r2, r1]; simp [SecurityMonitor.init, hlim])
  obtain ⟨b4, r4, k4⟩ :=
    crl_allow env t4
      (SecurityMonitor.check_rate_limit env t3
        (SecurityMonitor.check_rate_limit env t2
          (SecurityMonitor.check_rate_limit env t1 SecurityMonitor.init ip 5 60).2
          ip 5 60).2 ip 5 60).2
      ip 5 60
      (by rw [r3, r2, r1]; simp [SecurityMonitor.init]
          refine ⟨by linarith, by linarith, by linarith⟩)
      (by rw [r3, r2, r1]; simp [SecurityMonitor.init, hlim])
  obtain ⟨b5, r5, k5⟩ :=
    crl_allow env t5
      (SecurityMonitor.check_rate_limit env t4
        (SecurityMonitor.check_rate_limit env t3
          (SecurityMonitor.check_rate_limit env t2
            (SecurityMonitor.check_rate_limit env t1 SecurityMonitor.init ip 5 60).2
            ip 5 60).2 ip 5 60).2 ip 5 60).2
      ip 5 60
      (by rw [r4, r3, r2, r1]; simp [SecurityMonitor.init]
          refine ⟨by linarith, by linarith, by linarith, by linarith⟩)
      (by rw [r4, r3, r2, r1]; simp [SecurityMonitor.init, hlim])
  obtain ⟨b6, r6, k6⟩ :=
    crl_deny env t6
      (SecurityMonitor.check_rate_limit env t5
        (SecurityMonitor.check_rate_limit env t4
          (SecurityMonitor.check_rate_limit env t3
            (SecurityMonitor.check_rate_limit env t2
              (SecurityMonitor.check_rate_limit env t1 SecurityMonitor.init ip 5 60).2
              ip 5 60).2 ip 5 60).2 ip 5 60).2 ip 5 60).2
      ip 5 60
      (by rw [r5, r4, r3, r2, r1]; simp [SecurityMonitor.init]
          refine ⟨by linarith, by linarith, by linarith, by linarith, by linarith⟩)
      (by rw [r5, r4, r3, r2, r1]; simp [SecurityMonitor.init, hlim])
  have hfinal : SecurityMonitor.is_blocked
      (SecurityMonitor.sixRateLimitCalls env ip t1 t2 t3 t4 t5 t6).2 ip = true := by
    simp only [SecurityMonitor.sixRateLimitCalls]
    simp only [SecurityMonitor.is_blocked, k6]
    exact List.elem_iff.mpr (List.mem_insert_iff.mpr (Or.inl rfl))
  refine ⟨?_, hfinal, ?_, ?_⟩
  · simp only [SecurityMonitor.sixRateLimitCalls]
    rw [b1, b2, b3, b4, b5, b6]
  · simp only [SecurityMonitor.sixRateLimitCalls]
    rw [r6, r5, r4, r3, r2, r1]
    simp [SecurityMonitor.init]
  · intro env2 now2 l2 w2
    exact is_blocked_check hfinal

/-- Witness for `rate_limit_five_then_block` at times 0,1,2,3,4,5 (span
5 < 60). -/
theorem rate_limit_five_then_block_witness :
    ((0 : ℚ) ≤ 1 ∧ (5 : ℚ) - 0 < 60) ∧
    (SecurityMonitor.sixRateLimitCalls 100 ("c") 0 1 2 3 4 5).1 =
      [true, true, true, true, true, false] ∧
    SecurityMonitor.is_blocked
      (SecurityMonitor.sixRateLimitCalls 100 ("c") 0 1 2 3 4 5).2 ("c") = true ∧
    (SecurityMonitor.sixRateLimitCalls 100 ("c") 0 1 2 3 4 5).2.rate_limits ("c") =
      [0, 1, 2, 3, 4] ∧
    SecurityMonitor.is_blocked
      (SecurityMonitor.check_rate_limit 100 1000
        (SecurityMonitor.sixRateLimitCalls 100 ("c") 0 1 2 3 4 5).2 ("c") 5 60).2
      ("c") = true := by
  have h := rate_limit_five_then_block 100 ("c") 0 1 2 3 4 5 (by norm_num) (by norm_num)
    (by norm_num) (by norm_num) (by norm_num) (by norm_num)
  exact ⟨⟨by norm_num, by norm_num⟩, h.1, h.2.1, h.2.2.1, h.2.2.2 100 1000 5 60⟩

/-- **C10** (confirmed): an explicit `limit` of exactly 100 (the
default) is replaced by the environment-configured
`RATE_LIMIT_PER_HOUR`; any other `limit` is used unchanged (the
environment value is then irrelevant).  Concretely, with an environment
limit of 2, a caller passing `limit=100` is rate limited after 2
requests — it cannot enforce a limit of exactly 100. -/
theorem rate_limit_env_override (env1 env2 : Int) (now : ℚ) (st : SecurityMonitor)
    (ip : String) (l : Int) (w : ℚ) (h : l ≠ 100) :
    SecurityMonitor.check_rate_limit env1 now st ip 100 w =
      SecurityMonitor.check_rate_limit env1 now st ip env1 w ∧
    SecurityMonitor.check_rate_limit env1 now st ip l w =
      SecurityMonitor.check_rate_limit env2 now st ip l w ∧
    ((SecurityMonitor.check_rate_limit 2 0 SecurityMonitor.init ("c") 100 3600).1 = true ∧
     (SecurityMonitor.check_rate_limit 2 1
        (SecurityMonitor.check_rate_limit 2 0 SecurityMonitor.init ("c") 100 3600).2
        ("c") 100 3600).1 = true ∧
     (SecurityMonitor.check_rate_limit 2 2
        (SecurityMonitor.check_rate_limit 2 1
          (SecurityMonitor.check_rate_limit 2 0 SecurityMonitor.init ("c") 100 3600).2
          ("c") 100 3600).2
        ("c") 100 3600).1 = false ∧
     SecurityMonitor.is_blocked
       (SecurityMonitor.check_rate_limit 2 2
          (SecurityMonitor.check_rate_limit 2 1
            (SecurityMonitor.check_rate_limit 2 0 SecurityMonitor.init ("c") 100 3600).2
            ("c") 100 3600).2
          ("c") 100 3600).2 ("c") = true) := by
  refine ⟨?_, ?_, ?_⟩
  · by_cases he : env1 = 100 <;> simp [SecurityMonitor.check_rate_limit, he]
  · simp [SecurityMonitor.check_rate_limit, h]
  · norm_num [SecurityMonitor.check_rate_limit, SecurityMonitor.init,
      SecurityMonitor.block_ip, SecurityMonitor.is_blocked, List.elem_iff,
      List.mem_insert_iff]

/-- Witness for `rate_limit_env_override` with `l = 5 ≠ 100`. -/
theorem rate_limit_env_override_witness :
    SecurityMonitor.check_rate_limit 2 0 SecurityMonitor.init ("c") 100 60 =
      SecurityMonitor.check_rate_limit 2 0 SecurityMonitor.init ("c") 2 60 ∧
    SecurityMonitor.check_rate_limit 2 0 SecurityMonitor.init ("c") 5 60 =
      SecurityMonitor.check_rate_limit 7 0 SecurityMonitor.init ("c") 5 60 :=
  ⟨(rate_limit_env_override 2 7 0 SecurityMonitor.init ("c") 5 60 (by decide)).1,
   (rate_limit_env_override 2 7 0 SecurityMonitor.init ("c") 5 60 (by decide)).2.1⟩

/-- **C6** (corrected), amended: the `credit_card` pattern matches
exactly 16 digits in 4 groups of 4 with optional `-`/space separators,
delimited by word boundaries — not 13–15-digit sequences (see the
counterexample).  For every text interleaving such card sequences with
digit-free filler compatible with the boundaries (each filler starts
and, except possibly the last, ends with a non-word character),
`detect_sensitive_data` reports exactly one `credit_card` finding per
non-overlapping sequence, in order, and the credit-card pass of
`redact_sensitive_data` replaces each sequence with the literal
`[REDACTED_CREDIT_CARD]`, leaving the filler to the remaining
patterns. -/
theorem credit_card_detect_redact
    (f0 : List Char) (segs : List (List Char × List Char))
    (hf0d : ∀ x ∈ f0, x.isDigit = false) (hf0w : lastIsWord false f0 = false)
    (hchain : ccChainOk segs) :
    DataPrivacyFilter.redactionTag ("credit_card") = "[REDACTED_CREDIT_CARD]" ∧
    (DataPrivacyFilter.detect_sensitive_data (String.mk (f0 ++ ccRender segs))).filter
        (fun p => p.1 == "credit_card") =
      segs.map (fun p => ("credit_card", String.mk p.1)) ∧
    DataPrivacyFilter.redact_sensitive_data (String.mk (f0 ++ ccRender segs)) =
      (DataPrivacyFilter.patternList.drop 1).foldl
        (fun acc p => String.mk (pySub p.2 (DataPrivacyFilter.redactionTag p.1).data acc.data))
        (String.mk (f0 ++
          ccRenderSub ((DataPrivacyFilter.redactionTag ("credit_card")).data) segs)) := by
  have hdata : (String.mk (f0 ++ ccRender segs)).data = f0 ++ ccRender segs := rfl
  have hfind := ccFindAll_text f0 segs hf0d hf0w hchain
  have hsub := ccSub_text ((DataPrivacyFilter.redactionTag ("credit_card")).data)
    f0 segs hf0d hf0w hchain
  refine ⟨by decide, ?_, ?_⟩
  · simp only [DataPrivacyFilter.detect_sensitive_data, DataPrivacyFilter.patternList,
      List.flatMap_cons, List.flatMap_nil, List.append_nil, List.filter_append, hdata,
      hfind,
      filter_key_of_ne ("ssn") ("credit_card") (by decide),
      filter_key_of_ne ("email") ("credit_card") (by decide),
      filter_key_of_ne ("phone") ("credit_card") (by decide),
      filter_key_of_ne ("api_key") ("credit_card") (by decide),
      filter_key_of_ne ("password") ("credit_card") (by decide),
      filter_key_of_ne ("token") ("credit_card") (by decide)]
    rw [filter_key_of_eq ("credit_card") (segs.map Prod.fst)]
    simp [List.map_map, Function.comp]
  · have hL : DataPrivacyFilter.redact_sensitive_data (String.mk (f0 ++ ccRender segs)) =
        (DataPrivacyFilter.patternList.drop 1).foldl
          (fun acc p => String.mk (pySub p.2 (DataPrivacyFilter.redactionTag p.1).data acc.data))
          (String.mk (pySub matchCreditCard
            ((DataPrivacyFilter.redactionTag ("credit_card")).data)
            (f0 ++ ccRender segs))) := rfl
    rw [hL, hsub]

/-- Witness for `credit_card_detect_redact` on the text
`"my cards: 1234-5678-9012-3456 and 1111 2222 3333 4444!"`. -/
theorem credit_card_detect_redact_witness :
    ccChainOk [((("1234-5678-9012-3456") : String).data, ((" and ") : String).data),
               ((("1111 2222 3333 4444") : String).data, (("!") : String).data)] ∧
    (DataPrivacyFilter.detect_sensitive_data
        ("my cards: 1234-5678-9012-3456 and 1111 2222 3333 4444!")).filter
        (fun p => p.1 == "credit_card") =
      [("credit_card", "1234-5678-9012-3456"), ("credit_card", "1111 2222 3333 4444")] ∧
    DataPrivacyFilter.redact_sensitive_data
        ("my cards: 1234-5678-9012-3456 and 1111 2222 3333 4444!") =
      "my cards: [REDACTED_CREDIT_CARD] and [REDACTED_CREDIT_CARD]!" := by
  have hchain : ccChainOk
      [((("1234-5678-9012-3456") : String).data, ((" and ") : String).data),
       ((("1111 2222 3333 4444") : String).data, (("!") : String).data)] := by
    refine ⟨⟨'1', '2', '3', '4', '5', '6', '7', '8', '9', '0', '1', '2', '3', '4', '5', '6',
        ['-'], ['-'], ['-'], by decide,
        Or.inr (Or.inl rfl), Or.inr (Or.inl rfl), Or.inr (Or.inl rfl), rfl⟩,
      by decide, by decide, Or.inr (by decide),
      ⟨'1', '1', '1', '1', '2', '2', '2', '2', '3', '3', '3', '3', '4', '4', '4', '4',
        [' '], [' '], [' '], by decide,
        Or.inr (Or.inr rfl), Or.inr (Or.inr rfl), Or.inr (Or.inr rfl), rfl⟩,
      by decide, by decide, Or.inl rfl, trivial⟩
  have h := credit_card_detect_redact ((("my cards: ") : String).data)
    [((("1234-5678-9012-3456") : String).data, ((" and ") : String).data),
     ((("1111 2222 3333 4444") : String).data, (("!") : String).data)]
    (by decide) (by decide) hchain
  refine ⟨hchain, h.2.1, ?_⟩
  have e2 : (DataPrivacyFilter.patternList.drop 1).foldl
      (fun acc p => String.mk (pySub p.2 (DataPrivacyFilter.redactionTag p.1).data acc.data))
      (String.mk ((("my cards: ") : String).data ++
        ccRenderSub ((DataPrivacyFilter.redactionTag ("credit_card")).data)
          [((("1234-5678-9012-3456") : String).data, ((" and ") : String).data),
           ((("1111 2222 3333 4444") : String).data, (("!") : String).data)])) =
      ("my cards: [REDACTED_CREDIT_CARD] and [REDACTED_CREDIT_CARD]!") := by decide
  exact h.2.2.trans e2

/-- **C6** counterexample: a 13-digit sequence in groups of 4 with
space separators is not matched by the `credit_card` pattern (the
pattern requires exactly 16 digits): `detect_sensitive_data` reports no
finding at all on it and `redact_sensitive_data` leaves it unchanged,
refuting "matches sequences of 13–16 digits".  Moreover the leading
`\b` is real: prefixing a 16-digit card with a word character `X`
suppresses the match. -/
theorem credit_card_13_digits_counterexample :
    (("4111 1111 1111 1" : String).data.filter Char.isDigit).length = 13 ∧
    (DataPrivacyFilter.detect_sensitive_data ("4111 1111 1111 1")).filter
        (fun p => p.1 == "credit_card") = [] ∧
    DataPrivacyFilter.detect_sensitive_data ("4111 1111 1111 1") = [] ∧
    DataPrivacyFilter.redact_sensitive_data ("4111 1111 1111 1") =
      "4111 1111 1111 1" ∧
    (DataPrivacyFilter.detect_sensitive_data ("X1234-5678-9012-3456")).filter
        (fun p => p.1 == "credit_card") = [] := by
  decide

/-- **C7** (confirmed, strengthened to all inputs): for every input text —
in particular any text containing a `<script>...</script>` construct of
any casing and body — the output of `sanitize_content` contains no
`<script` substring and no literal `javascript:`; the final character
filter removes every `<` and `:`, so removal of non-whitelisted
characters cannot recreate either. -/
theorem sanitize_no_script_no_javascript (s : String) :
    ¬ List.IsInfix (("<script").data) ((RequestValidator.sanitize_content s).data) ∧
    ¬ List.IsInfix (("javascript:").data) ((RequestValidator.sanitize_content s).data) := by
  constructor
  · intro h
    have hm : '<' ∈ (RequestValidator.sanitize_content s).data := h.subset (by decide)
    exact absurd (sanitize_content_chars hm) (by decide)
  · intro h
    have hm : ':' ∈ (RequestValidator.sanitize_content s).data := h.subset (by decide)
    exact absurd (sanitize_content_chars hm) (by decide)

/-- **C1** (corrected), amended: only the synchronous `/api/chat` path
runs the inbound privacy check — when the filter is enabled and the
validated messages contain detected PII it aborts with the
privacy-violation error before any upstream call (no upstream call is
recorded).  The streamed `/api/chat/stream` path performs no inbound
privacy check: it calls the upstream provider for every successfully
validated message, PII or not (it only redacts outbound chunks). -/
theorem privacy_abort_sync_not_stream :
    (∀ (cfg : AppConfig)
       (upstream : List ChatMessage → String → Option Int → Option ℚ → UpstreamOutcome)
       (ts : String) (d : List (String × JVal)) (vr : RequestValidator.ValidatedRequest),
      cfg.gaia_configured = true →
      RequestValidator.validate_chat_request cfg.max_message_length
        (App.buildChatRequest cfg d) = Except.ok vr →
      privacyEnabled cfg = true →
      (DataPrivacyFilter.validate_request_privacy vr.messages).isEmpty = false →
      App.chat_completion cfg upstream ts (some d) =
        ⟨400, ChatBody.err ("Privacy violation detected"), [], []⟩) ∧
    (∀ (cfg : AppConfig)
       (us : List ChatMessage → String → Except String (List (Option String)))
       (msg : String) (mp : Option String) (vr : RequestValidator.ValidatedRequest),
      cfg.gaia_configured = true → msg ≠ "" →
      RequestValidator.validate_chat_request cfg.max_message_length
        (App.buildStreamRequest (mp.getD cfg.default_model) msg) = Except.ok vr →
      (App.chat_stream cfg us (some msg) mp).upstream_calls = [(vr.messages, vr.model)]) := by
  constructor
  · intro cfg upstream ts d vr hc hv hp hviol
    by_cases hd : d = []
    · -- the empty body is rejected as invalid JSON before validation,
      -- but then the validated messages are empty and no privacy
      -- violation is detectable: the hypotheses are contradictory
      exfalso
      subst hd
      have hb : App.buildChatRequest cfg [] =
          [("model", JVal.s cfg.default_model), ("messages", JVal.arr [])] := rfl
      rw [hb] at hv
      rw [validate_model_only_messages_nil hv] at hviol
      exact absurd hviol (by decide)
    · have hde : d.isEmpty = false := by
        cases d with
        | nil => exact absurd rfl hd
        | cons a l => rfl
      simp only [App.chat_completion, hc, hde, hv]
      simp [hp, hviol]
  · intro cfg us msg mp vr hc hmsg hv
    simp only [App.chat_stream, hc]
    simp only [if_true, hv, hmsg]
    cases hus : us vr.messages vr.model <;> simp [hus, hmsg]

/-- Witness for `privacy_abort_sync_not_stream` at concrete inputs. -/
theorem privacy_abort_sync_not_stream_witness :
    (AppConfig.gaia_configured ⟨"true", true, "m", 10000⟩ = true) ∧
    privacyEnabled ⟨"true", true, "m", 10000⟩ = true ∧
    App.chat_completion ⟨"true", true, "m", 10000⟩
        (fun _ _ _ _ => UpstreamOutcome.success (some ("ok")) none) ("ts")
        (some [("message", JVal.s ("111-22-3333"))]) =
      ⟨400, ChatBody.err ("Privacy violation detected"), [], []⟩ ∧
    (App.chat_stream ⟨"true", true, "m", 10000⟩
        (fun _ _ => Except.ok [some ("hi")]) (some ("111-22-3333")) none).upstream_calls =
      [([⟨"user", "111-22-3333"⟩], "m")] := by
  refine ⟨rfl, by decide, ?_, ?_⟩
  · exact privacy_abort_sync_not_stream.1 ⟨"true", true, "m", 10000⟩
      (fun _ _ _ _ => UpstreamOutcome.success (some ("ok")) none) ("ts")
      [("message", JVal.s ("111-22-3333"))]
      ⟨"m", [⟨"user", "111-22-3333"⟩], none, none⟩ rfl rfl (by decide) (by decide)
  · exact privacy_abort_sync_not_stream.2 ⟨"true", true, "m", 10000⟩
      (fun _ _ => Except.ok [some ("hi")]) ("111-22-3333") none
      ⟨"m", [⟨"user", "111-22-3333"⟩], none, none⟩ rfl (by decide) rfl

/-- **C1** counterexample: with the privacy filter enabled and a
message whose sanitized content still contains detectable PII (an SSN),
the streamed path makes the upstream call and emits ordinary content
events — it does not abort with a privacy-violation error before its
upstream call, refuting the claim for the streamed entry operation. -/
theorem stream_no_privacy_check_counterexample :
    privacyEnabled ⟨"true", true, "m", 10000⟩ = true ∧
    DataPrivacyFilter.detect_sensitive_data
      (RequestValidator.sanitize_content ("111-22-3333")) ≠ [] ∧
    (App.chat_stream ⟨"true", true, "m", 10000⟩
        (fun _ _ => Except.ok [some ("hi")]) (some ("111-22-3333")) none).upstream_calls =
      [([⟨"user", "111-22-3333"⟩], "m")] ∧
    (App.chat_stream ⟨"true", true, "m", 10000⟩
        (fun _ _ => Except.ok [some ("hi")]) (some ("111-22-3333")) none).events =
      [App.SSEEvent.content ("hi"), App.SSEEvent.done] := by
  exact ⟨rfl, by decide, rfl, rfl⟩

/-- **C2** (corrected), amended: `SecureGaiaClient.chat_completion` maps
each upstream failure to its fixed client-facing message (logging the
original text), and the synchronous `/api/chat` path — on any request
with a non-empty JSON body, which is what passes its falsy-body gate —
returns exactly those fixed messages, with status 400 for the
`ValueError`s and 500 for the `RuntimeError`s, independently of the
upstream error text, which appears only in the logs.  The streamed
path, however, bypasses this mapping: its blanket exception handler
emits the raw upstream error text verbatim as its error event. -/
theorem upstream_error_mapping_sync :
    (∀ e : String,
      SecureGaiaClient.chat_completion (UpstreamOutcome.badRequest e) =
        (Except.error (GaiaErr.valueError ("Invalid request format")),
          ["Bad request to GaiaNet: " ++ e]) ∧
      SecureGaiaClient.chat_completion (UpstreamOutcome.notFound e) =
        (Except.error (GaiaErr.valueError ("Model not available")),
          ["Model not found: " ++ e]) ∧
      SecureGaiaClient.chat_completion (UpstreamOutcome.internalError e) =
        (Except.error (GaiaErr.runtimeError ("Service temporarily unavailable")),
          ["GaiaNet server error: " ++ e]) ∧
      SecureGaiaClient.chat_completion (UpstreamOutcome.otherError e) =
        (Except.error (GaiaErr.runtimeError ("Request failed")),
          ["Unexpected error: " ++ e])) ∧
    (∀ (cfg : AppConfig)
       (upstream : List ChatMessage → String → Option Int → Option ℚ → UpstreamOutcome)
       (ts : String) (d : List (String × JVal)) (vr : RequestValidator.ValidatedRequest)
       (e : String),
      cfg.gaia_configured = true → d ≠ [] →
      RequestValidator.validate_chat_request cfg.max_message_length
        (App.buildChatRequest cfg d) = Except.ok vr →
      (privacyEnabled cfg &&
        !(DataPrivacyFilter.validate_request_privacy vr.messages).isEmpty) = false →
      ((upstream vr.messages vr.model vr.max_tokens vr.temperature =
          UpstreamOutcome.badRequest e →
        App.chat_completion cfg upstream ts (some d) =
          ⟨400, ChatBody.err ("Invalid request format"), [(vr.messages, vr.model)],
            ["Bad request to GaiaNet: " ++ e]⟩) ∧
       (upstream vr.messages vr.model vr.max_tokens vr.temperature =
          UpstreamOutcome.notFound e →
        App.chat_completion cfg upstream ts (some d) =
          ⟨400, ChatBody.err ("Model not available"), [(vr.messages, vr.model)],
            ["Model not found: " ++ e]⟩) ∧
       (upstream vr.messages vr.model vr.max_tokens vr.temperature =
          UpstreamOutcome.internalError e →
        App.chat_completion cfg upstream ts (some d) =
          ⟨500, ChatBody.err ("Service temporarily unavailable"), [(vr.messages, vr.model)],
            ["GaiaNet server error: " ++ e]⟩) ∧
       (upstream vr.messages vr.model vr.max_tokens vr.temperature =
          UpstreamOutcome.otherError e →
        App.chat_completion cfg upstream ts (some d) =
          ⟨500, ChatBody.err ("Request failed"), [(vr.messages, vr.model)],
            ["Unexpected error: " ++ e]⟩))) ∧
    (∀ (cfg : AppConfig)
       (us : List ChatMessage → String → Except String (List (Option String)))
       (msg : String) (mp : Option String) (vr : RequestValidator.ValidatedRequest)
       (e : String),
      cfg.gaia_configured = true → msg ≠ "" →
      RequestValidator.validate_chat_request cfg.max_message_length
        (App.buildStreamRequest (mp.getD cfg.default_model) msg) = Except.ok vr →
      us vr.messages vr.model = Except.error e →
      (App.chat_stream cfg us (some msg) mp).events = [App.SSEEvent.error e]) := by
  refine ⟨fun e => ⟨rfl, rfl, rfl, rfl⟩, ?_, ?_⟩
  · intro cfg upstream ts d vr e hc hd hv hnp
    have hde : d.isEmpty = false := by
      cases d with
      | nil => exact absurd rfl hd
      | cons a l => rfl
    refine ⟨?_, ?_, ?_, ?_⟩ <;> intro hup <;>
      simp only [App.chat_completion, hc, hde, hv] <;>
      simp [hnp, hup, SecureGaiaClient.chat_completion]
  · intro cfg us msg mp vr e hc hmsg hv hus
    simp only [App.chat_stream, hc]
    simp [hv, hmsg, hus]

/-- Witness for `upstream_error_mapping_sync` at concrete inputs. -/
theorem upstream_error_mapping_sync_witness :
    SecureGaiaClient.chat_completion (UpstreamOutcome.badRequest ("boom")) =
      (Except.error (GaiaErr.valueError ("Invalid request format")),
        ["Bad request to GaiaNet: boom"]) ∧
    App.chat_completion ⟨"true", true, "m", 10000⟩
        (fun _ _ _ _ => UpstreamOutcome.internalError ("db down")) ("ts")
        (some [("message", JVal.s ("hello"))]) =
      ⟨500, ChatBody.err ("Service temporarily unavailable"),
        [([⟨"user", "hello"⟩], "m")], ["GaiaNet server error: db down"]⟩ ∧
    (App.chat_stream ⟨"true", true, "m", 10000⟩
        (fun _ _ => Except.error ("raw upstream failure")) (some ("hello")) none).events =
      [App.SSEEvent.error ("raw upstream failure")] := by
  refine ⟨(upstream_error_mapping_sync.1 ("boom")).1, ?_, ?_⟩
  · exact (upstream_error_mapping_sync.2.1 ⟨"true", true, "m", 10000⟩
      (fun _ _ _ _ => UpstreamOutcome.internalError ("db down")) ("ts")
      [("message", JVal.s ("hello"))] ⟨"m", [⟨"user", "hello"⟩], none, none⟩
      ("db down") rfl (List.cons_ne_nil _ _) rfl (by decide)).2.2.1 rfl
  · exact upstream_error_mapping_sync.2.2 ⟨"true", true, "m", 10000⟩
      (fun _ _ => Except.error ("raw upstream failure")) ("hello") none
      ⟨"m", [⟨"user", "hello"⟩], none, none⟩ ("raw upstream failure")
      rfl (by decide) rfl rfl

/-- **C2** counterexample: in the streamed entry operation an upstream
failure is not mapped to any of the four fixed client-facing messages —
the raw upstream error text is yielded verbatim to the caller. -/
theorem stream_error_leak_counterexample :
    (App.chat_stream ⟨"true", true, "m", 10000⟩
        (fun _ _ => Except.error ("secret upstream detail 42")) (some ("hello")) none).events =
      [App.SSEEvent.error ("secret upstream detail 42")] ∧
    ("secret upstream detail 42" : String) ≠ "Invalid request format" ∧
    ("secret upstream detail 42" : String) ≠ "Model not available" ∧
    ("secret upstream detail 42" : String) ≠ "Service temporarily unavailable" ∧
    ("secret upstream detail 42" : String) ≠ "Request failed" := by
  exact ⟨rfl, by decide, by decide, by decide, by decide⟩

/-- **C3** (confirmed): `validate_chat_request` checks its failure
conditions in source order — model format; messages is a list of at
most 100 entries; per message: record, then role, then content length;
then optional `max_tokens` in [1,4096]; then `temperature` in [0,2] —
raising on the first failure without accumulating others.  The
universal part shows an invalid model aborts first whatever else is
wrong; the closed conjuncts exhibit each later priority on inputs
violating several conditions at once, and the three cited rejections
(101 messages, role `"hacker"`, `max_tokens = 5000`) with their error
categories. -/
theorem validate_chat_request_order (maxLen : Nat) (d : List (String × JVal)) (m : String)
    (hm : jget d ("model") = some (JVal.s m)) (hbad : reMatchModelName m = false) :
    RequestValidator.validate_chat_request maxLen d =
      Except.error (PyErr.valueError ("Invalid model name format")) ∧
    (RequestValidator.validate_chat_request 5
        [("model", JVal.s ("gpt")), ("messages", JVal.s ("nope")),
         ("max_tokens", JVal.i 5000)] =
      Except.error (PyErr.valueError (RequestValidator.msgsError))) ∧
    (RequestValidator.validate_chat_request 5
        [("model", JVal.s ("gpt")),
         ("messages", JVal.arr (List.replicate 101 (JVal.obj [("role", JVal.s ("hacker"))]))),
         ("max_tokens", JVal.i 5000)] =
      Except.error (PyErr.valueError (RequestValidator.msgsError))) ∧
    (RequestValidator.validate_chat_request 5
        [("model", JVal.s ("gpt")), ("messages", JVal.arr [JVal.s ("x")]),
         ("max_tokens", JVal.i 0)] =
      Except.error (PyErr.valueError ("Message must be a dictionary"))) ∧
    (RequestValidator.validate_chat_request 5
        [("model", JVal.s ("gpt")),
         ("messages", JVal.arr [JVal.obj [("role", JVal.s ("hacker")),
           ("content", JVal.s ("aaaaaaaa"))]]),
         ("max_tokens", JVal.i 5000)] =
      Except.error (PyErr.valueError ("Invalid role: hacker"))) ∧
    (RequestValidator.validate_chat_request 5
        [("model", JVal.s ("gpt")),
         ("messages", JVal.arr [JVal.obj [("role", JVal.s ("user")),
           ("content", JVal.s ("aaaaaaaa"))]]),
         ("max_tokens", JVal.i 5000)] =
      Except.error (PyErr.valueError ("Message too long (max: 5)"))) ∧
    (RequestValidator.validate_chat_request 5
        [("model", JVal.s ("gpt")),
         ("messages", JVal.arr [JVal.obj [("role", JVal.s ("user")),
           ("content", JVal.s ("hi"))]]),
         ("max_tokens", JVal.i 5000), ("temperature", JVal.i 99)] =
      Except.error (PyErr.valueError ("Invalid max_tokens value"))) ∧
    (RequestValidator.validate_chat_request 5
        [("model", JVal.s ("gpt")),
         ("messages", JVal.arr [JVal.obj [("role", JVal.s ("user")),
           ("content", JVal.s ("hi"))]]),
         ("temperature", JVal.i 3)] =
      Except.error (PyErr.valueError ("Invalid temperature value"))) ∧
    (RequestValidator.validate_chat_request 10000
        [("model", JVal.s ("gpt")),
         ("messages", JVal.arr (List.replicate 101
           (JVal.obj [("role", JVal.s ("user")), ("content", JVal.s ("hi"))])))] =
      Except.error (PyErr.valueError (RequestValidator.msgsError))) ∧
    (RequestValidator.validate_chat_request 10000
        [("model", JVal.s ("gpt")),
         ("messages", JVal.arr [JVal.obj [("role", JVal.s ("hacker")),
           ("content", JVal.s ("hi"))]])] =
      Except.error (PyErr.valueError ("Invalid role: hacker"))) ∧
    (RequestValidator.validate_chat_request 10000
        [("model", JVal.s ("gpt")),
         ("messages", JVal.arr [JVal.obj [("role", JVal.s ("user")),
           ("content", JVal.s ("hi"))]]),
         ("max_tokens", JVal.i 5000)] =
      Except.error (PyErr.valueError ("Invalid max_tokens value"))) ∧
    (RequestValidator.validate_chat_request 10000
        [("model", JVal.s ("gpt")),
         ("messages", JVal.arr [JVal.obj [("role", JVal.s ("user")),
           ("content", JVal.s ("hi"))]])] =
      Except.ok ⟨"gpt", [⟨"user", "hi"⟩], none, none⟩) := by
  refine ⟨?_, rfl, rfl, rfl, rfl, rfl, rfl, rfl, rfl, rfl, rfl, rfl⟩
  simp only [RequestValidator.validate_chat_request, hm, Option.getD]
  rw [if_pos hbad]

/-- Witness for `validate_chat_request_order` at a concrete request
whose model name fails the format check. -/
theorem validate_chat_request_order_witness :
    jget [("model", JVal.s ("bad model!"))] ("model") = some (JVal.s ("bad model!")) ∧
    reMatchModelName ("bad model!") = false ∧
    RequestValidator.validate_chat_request 10000 [("model", JVal.s ("bad model!"))] =
      Except.error (PyErr.valueError ("Invalid model name format")) := by
  refine ⟨rfl, by decide, ?_⟩
  exact (validate_chat_request_order 10000 [("model", JVal.s ("bad model!"))]
    ("bad model!") rfl (by decide)).1

/-- **C9** (confirmed): sanitization removes every `@` (not in the
character whitelist), so `detect_sensitive_data` applied to any
sanitized text reports no `email`-kind finding; and since every message
of a successfully validated request carries sanitized content, the
`/api/chat` privacy check — which runs on the validated messages — can
never produce an email-kind violation. -/
theorem no_email_after_sanitize :
    (∀ (s : String), ∀ p ∈ DataPrivacyFilter.detect_sensitive_data
        (RequestValidator.sanitize_content s), p.1 ≠ "email") ∧
    (∀ (maxLen : Nat) (d : List (String × JVal)) (vr : RequestValidator.ValidatedRequest),
      RequestValidator.validate_chat_request maxLen d = Except.ok vr →
      ∀ m ∈ vr.messages, ∀ p ∈ DataPrivacyFilter.detect_sensitive_data m.content,
        p.1 ≠ "email") := by
  have main : ∀ (s : String), ∀ p ∈ DataPrivacyFilter.detect_sensitive_data
      (RequestValidator.sanitize_content s), p.1 ≠ "email" :=
    fun s => detect_fst_ne_email (at_not_mem_sanitize s)
  refine ⟨main, ?_⟩
  intro maxLen d vr h m hm p hp
  obtain ⟨msgs, hmsgs⟩ := validate_ok_messages h
  obtain ⟨c, hc⟩ := validateMessages_content hmsgs m hm
  rw [hc] at hp
  exact main c p hp

/-- Witness for `no_email_after_sanitize` at concrete inputs: an SSN
finding survives sanitization while no email finding can. -/
theorem no_email_after_sanitize_witness :
    (("ssn", "111-22-3333") ∈ DataPrivacyFilter.detect_sensitive_data
        (RequestValidator.sanitize_content ("111-22-3333 a@b.com"))) ∧
    (RequestValidator.validate_chat_request 10000
        [("model", JVal.s ("gpt")),
         ("messages", JVal.arr [JVal.obj [("role", JVal.s ("user")),
           ("content", JVal.s ("111-22-3333 a@b.com"))]])] =
      Except.ok ⟨"gpt", [⟨"user", "111-22-3333 ab.com"⟩], none, none⟩) ∧
    ("ssn" : String) ≠ "email" := by
  refine ⟨by decide, rfl, ?_⟩
  exact no_email_after_sanitize.1 ("111-22-3333 a@b.com") (("ssn", "111-22-3333")) (by decide)

/-- **C8** (corrected), amended part: none of the seven
`[REDACTED_<KIND>]` placeholders matches any detection pattern — on each
placeholder `detect_sensitive_data` finds nothing and
`redact_sensitive_data` is the identity.  (Full idempotence of `redact`
fails; see the counterexample.) -/
theorem redaction_placeholders_inert :
    (DataPrivacyFilter.detect_sensitive_data (DataPrivacyFilter.redactionTag ("credit_card")) = [] ∧
      DataPrivacyFilter.redact_sensitive_data (DataPrivacyFilter.redactionTag ("credit_card")) =
        DataPrivacyFilter.redactionTag ("credit_card")) ∧
    (DataPrivacyFilter.detect_sensitive_data (DataPrivacyFilter.redactionTag ("ssn")) = [] ∧
      DataPrivacyFilter.redact_sensitive_data (DataPrivacyFilter.redactionTag ("ssn")) =
        DataPrivacyFilter.redactionTag ("ssn")) ∧
    (DataPrivacyFilter.detect_sensitive_data (DataPrivacyFilter.redactionTag ("email")) = [] ∧
      DataPrivacyFilter.redact_sensitive_data (DataPrivacyFilter.redactionTag ("email")) =
        DataPrivacyFilter.redactionTag ("email")) ∧
    (DataPrivacyFilter.detect_sensitive_data (DataPrivacyFilter.redactionTag ("phone")) = [] ∧
      DataPrivacyFilter.redact_sensitive_data (DataPrivacyFilter.redactionTag ("phone")) =
        DataPrivacyFilter.redactionTag ("phone")) ∧
    (DataPrivacyFilter.detect_sensitive_data (DataPrivacyFilter.redactionTag ("api_key")) = [] ∧
      DataPrivacyFilter.redact_sensitive_data (DataPrivacyFilter.redactionTag ("api_key")) =
        DataPrivacyFilter.redactionTag ("api_key")) ∧
    (DataPrivacyFilter.detect_sensitive_data (DataPrivacyFilter.redactionTag ("password")) = [] ∧
      DataPrivacyFilter.redact_sensitive_data (DataPrivacyFilter.redactionTag ("password")) =
        DataPrivacyFilter.redactionTag ("password")) ∧
    (DataPrivacyFilter.detect_sensitive_data (DataPrivacyFilter.redactionTag ("token")) = [] ∧
      DataPrivacyFilter.redact_sensitive_data (DataPrivacyFilter.redactionTag ("token")) =
        DataPrivacyFilter.redactionTag ("token")) := by
  decide

/-- **C8** counterexample: `redact_sensitive_data` is not idempotent.
On `"111-22-3333password: x"` the first pass redacts only the password
(the SSN is not matched because `password` glues a word character to its
last digit, defeating the trailing `\b`); the replacement's `[` creates
a new word boundary, so a second pass additionally redacts the SSN. -/
theorem redact_not_idempotent_counterexample :
    DataPrivacyFilter.redact_sensitive_data
        (DataPrivacyFilter.redact_sensitive_data ("111-22-3333password: x")) ≠
      DataPrivacyFilter.redact_sensitive_data ("111-22-3333password: x") ∧
    DataPrivacyFilter.redact_sensitive_data ("111-22-3333password: x") =
      "111-22-3333[REDACTED_PASSWORD]" ∧
    DataPrivacyFilter.redact_sensitive_data ("111-22-3333[REDACTED_PASSWORD]") =
      "[REDACTED_SSN][REDACTED_PASSWORD]" := by
  decide

end GaiaApp
